import Mathlib

/-!
Verification development for the google-adk-a2a-idp repository.

The repository is a chain of seven LLM-driven agents whose local tool
functions read a shared YAML/JSON state directory, render string
templates, and write files back.  This file gives a shallow embedding of
those tool functions and proves or refutes the frozen claims about them.

Modelling conventions:
* Python strings are embedded as lists of characters (`Str`), because the
  character-level operations the source uses (strip, lower, split,
  replace, substring search) must evaluate inside the kernel.
* The shared state directory is a store from paths to file contents.  A
  path is the pair of the directory (the agents build every path as
  `Path(OUTPUT_DIR) / relative-name`) and the relative name.
* YAML/JSON (de)serialisation is the PyYAML / json library, external to
  the repository; files hold structured values (`Val`) and dump followed
  by safe_load is taken as the identity on them, which is exactly the
  round-trip property the spec asserts for these flat configuration
  dictionaries.  Files whose content no tool function ever reads back
  (debug logs, generated shell scripts, HTML/py templates) are stored as
  opaque strings.
* Every tool function also returns the list of side effects it performs:
  file reads, file writes, chmod calls, and external process executions.
-/

/-- Python strings, embedded as character lists so that all operations
taken from the source evaluate in the kernel. -/
abbrev Str := List Char

/-- Conversion from a Lean string literal to the embedding. -/
def str (s : String) : Str := s.data

/-- Python str.strip from the left. -/
def trimLeft (l : Str) : Str := l.dropWhile Char.isWhitespace

/-- Python str.strip on both ends. -/
def trim (l : Str) : Str := ((trimLeft l).reverse.dropWhile Char.isWhitespace).reverse

/-- Python str.lower (ASCII, which is all the source uses). -/
def lower (l : Str) : Str := l.map Char.toLower

/-- Python str.replace for single characters, as in replace(' ', '_'). -/
def replaceChar (a b : Char) (l : Str) : Str := l.map (fun c => if c = a then b else c)

/-- Python str.split(sep) for a one-character separator: splitting the
empty string yields one empty piece, matching Python. -/
def splitOnChar (c : Char) : Str → List Str
  | [] => [[]]
  | x :: xs =>
      let r := splitOnChar c xs
      if x = c then [] :: r
      else
        match r with
        | [] => [[x]]
        | h :: t => (x :: h) :: t

/-- Python str.split(sep, 1): the part before the first separator and the
part after it, or none when the separator does not occur. -/
def splitFirst (c : Char) : Str → Option (Str × Str)
  | [] => none
  | x :: xs =>
      if x = c then some ([], xs)
      else
        match splitFirst c xs with
        | none => none
        | some (a, b) => some (x :: a, b)

/-- Whether a list starts with the given pattern. -/
def startsWith : Str → Str → Bool
  | [], _ => true
  | _ :: _, [] => false
  | p :: ps, x :: xs => p = x && startsWith ps xs

/-- Python substring containment (the in operator on strings). -/
def containsSub (needle : Str) : Str → Bool
  | [] => startsWith needle []
  | x :: xs => startsWith needle (x :: xs) || containsSub needle xs

/-- Python sep.join(pieces). -/
def joinSep (sep : Str) : List Str → Str
  | [] => []
  | [x] => x
  | x :: y :: t => x ++ sep ++ joinSep sep (y :: t)

/-- Structured YAML/JSON values as PyYAML safe_load / json.load produce
them for the documents this repository handles. -/
inductive Val where
  | vNull : Val
  | vBool : Bool → Val
  | vNat : Nat → Val
  | vStr : Str → Val
  | vList : List Val → Val
  | vDict : List (Str × Val) → Val

open Val

instance : Inhabited Val := ⟨Val.vNull⟩

/-- Python truthiness for the values above (used by if config, or-chains
and similar source constructs). -/
def Val.truthy : Val → Bool
  | vNull => false
  | vBool b => b
  | vNat n => n != 0
  | vStr s => !s.isEmpty
  | vList l => !l.isEmpty
  | vDict l => !l.isEmpty

/-- Dictionary lookup (dict.get with default None). -/
def lookupD : List (Str × Val) → Str → Option Val
  | [], _ => none
  | (k, v) :: rest, key => if k = key then some v else lookupD rest key

/-- dict.get on a value: None on non-dicts, as the source only calls get
on dicts. -/
def dGet (v : Val) (key : Str) : Option Val :=
  match v with
  | vDict l => lookupD l key
  | _ => none

/-- dict.get(key, default). -/
def dGetD (v : Val) (key : Str) (dflt : Val) : Val := (dGet v key).getD dflt

/-- Nested dict lookup along a key path. -/
def dGetPath (v : Val) : List Str → Option Val
  | [] => some v
  | k :: ks =>
      match dGet v k with
      | none => none
      | some w => dGetPath w ks

/-- Python dict assignment d[k] = v: overwrite in place, else append. -/
def dictSet : List (Str × Val) → Str → Val → List (Str × Val)
  | [], k, v => [(k, v)]
  | (k1, v1) :: rest, k, v =>
      if k1 = k then (k, v) :: rest else (k1, v1) :: dictSet rest k v

/-- The status field of a tool result, when it is a string. -/
def statusOf (v : Val) : Option Str :=
  match dGet v (str "status") with
  | some (vStr s) => some s
  | _ => none

/-- A path in the shared state store: the output directory the agent
computed plus the relative file name under it. -/
structure FPath where
  dir : Str
  rel : Str
deriving DecidableEq

/-- The shared state directory: newest write first. -/
abbrev FS := List (FPath × Val)

/-- Write a file (shadowing any previous content). -/
def FS.write (fs : FS) (p : FPath) (v : Val) : FS := (p, v) :: fs

/-- Read a file. -/
def FS.read : FS → FPath → Option Val
  | [], _ => none
  | (q, v) :: rest, p => if q = p then some v else FS.read rest p

/-- Path.exists(). -/
def FS.pathExists (fs : FS) (p : FPath) : Bool := (fs.read p).isSome

/-- Side effects a tool function can perform. -/
inductive Effect where
  | readF : FPath → Effect
  | writeF : FPath → Effect
  | chmodF : FPath → Effect
  | execP : List Str → Effect
deriving DecidableEq

/-- Result, updated store and effect trace of one tool invocation. -/
structure ToolOut where
  res : Val
  fs : FS
  effs : List Effect

/-- The ADK_OUTPUT_DIR environment variable, None when unset. -/
abbrev Env := Option Str

/-- os.getenv with the default used by the Platform Architect agent and
the orchestrator (platform_architect/agent.py line 42). -/
def archOutputDir (env : Env) : Str := env.getD (str "./test-outputs")

/-- os.getenv with the default used by the Infrastructure, Security,
Observability, DevEx and Web Portal agents (for example
infrastructure/agent.py line 23). -/
def appOutputDir (env : Env) : Str := env.getD (str "/app/outputs")

/-!  Platform Architect agent, platform_architect/agent.py.  -/

/-- Key normalisation in save_platform_config line 121:
key.strip().lower().replace(' ', '_'). -/
def normKey (k : Str) : Str := replaceChar ' ' '_' (lower (trim k))

/-- Assignment into the parts dict (Python dict semantics). -/
def partsSet : List (Str × Str) → Str → Str → List (Str × Str)
  | [], k, v => [(k, v)]
  | (k1, v1) :: rest, k, v =>
      if k1 = k then (k, v) :: rest else (k1, v1) :: partsSet rest k v

/-- Lookup in the parts dict. -/
def partsGet : List (Str × Str) → Str → Option Str
  | [], _ => none
  | (k, v) :: rest, key => if k = key then some v else partsGet rest key

/-- Parsing of stack_summary, save_platform_config lines 116-121: split on
the pipe character, keep items containing a colon, normalise the key and
strip the value. -/
def parseParts (ss : Str) : List (Str × Str) :=
  (splitOnChar '|' ss).foldl
    (fun acc item =>
      match splitFirst ':' item with
      | none => acc
      | some (k, v) => partsSet acc (normKey k) (trim v))
    []

/-- The eight required fields of save_platform_config line 124. -/
def requiredFields : List Str :=
  [str "runtime", str "framework", str "database", str "cache",
   str "monitoring", str "security", str "deployment", str "environment"]

/-- Fields absent from the parsed parts or mapped to an empty value,
save_platform_config line 125. -/
def missingFields (parts : List (Str × Str)) : List Str :=
  requiredFields.filter (fun f =>
    match partsGet parts f with
    | none => true
    | some v => v.isEmpty)

/-- One self-service capability entry. -/
def capability (t d : String) : Val :=
  vDict [(str "type", vStr (str t)),
         (str "description", vStr (str d)),
         (str "enabled", vBool true)]

/-- Self-service capability detection from the user task,
save_platform_config lines 67-114. -/
def detectCapabilities (task : Str) : List Val :=
  let tl := lower task
  if [str "self-service", str "self service", str "add", str "create",
      str "generate", str "provision"].any (fun k => containsSub k tl) then
    (if containsSub (str "add") tl && containsSub (str "docker") tl then
       [capability "add_docker_service" "Self-service capability: Add Docker Service"]
     else []) ++
    (if containsSub (str "terraform") tl || containsSub (str "infrastructure as code") tl then
       [capability "generate_terraform" "Self-service capability: Generate Terraform"]
     else []) ++
    (if containsSub (str "pipeline") tl || containsSub (str "ci/cd") tl then
       [capability "create_pipeline" "Self-service capability: Create Pipeline"]
     else []) ++
    (if containsSub (str "database") tl && containsSub (str "provision") tl then
       [capability "provision_database" "Self-service capability: Provision Database"]
     else [])
  else []

/-- Monitoring metrics part, save_platform_config line 139. -/
def monitoringMetrics (m : Str) : Str :=
  if m.contains '+' then (splitOnChar '+' m).getD 0 [] else m

/-- Monitoring visualization part, save_platform_config line 140. -/
def monitoringVisualization (m : Str) : Str :=
  if m.contains '+' then (splitOnChar '+' m).getD 1 [] else str "Grafana"

/-- CI/CD tool selection, save_platform_config line 142:
parts.get('ci/cd', parts.get('cicd', 'Jenkins')). -/
def cicdTool (parts : List (Str × Str)) : Str :=
  ((partsGet parts (str "ci/cd")).getD ((partsGet parts (str "cicd")).getD (str "Jenkins")))

/-- The platform configuration dictionary assembled by
save_platform_config lines 155-213 (including the optional features
section when self-service capabilities were detected). -/
def buildConfig (now : Str) (caps : List Val) (parts : List (Str × Str)) : Val :=
  let runtime := (partsGet parts (str "runtime")).getD []
  let framework := (partsGet parts (str "framework")).getD []
  let database := (partsGet parts (str "database")).getD []
  let cache := (partsGet parts (str "cache")).getD []
  let monitoring := (partsGet parts (str "monitoring")).getD []
  let security := (partsGet parts (str "security")).getD []
  let deployment := (partsGet parts (str "deployment")).getD []
  let environment := (partsGet parts (str "environment")).getD []
  let metrics := monitoringMetrics monitoring
  let visualization := monitoringVisualization monitoring
  let base :=
    [(str "platform", vDict
        [(str "name", vStr (str "IDP Auto-Provisioned by AI Agents (ADK Mode)")),
         (str "version", vStr (str "1.0.0")),
         (str "created_at", vStr now),
         (str "generated_by", vStr (str "Platform Architect Agent (ADK Interactive Mode)"))]),
     (str "stack", vDict
        [(str "runtime", vStr runtime),
         (str "framework", vStr framework),
         (str "database", vStr database),
         (str "cache", vStr cache)]),
     (str "infrastructure", vDict
        [(str "deployment_target", vStr deployment),
         (str "deployment_environment", vStr environment)]),
     (str "components", vDict
        [(str "monitoring", vDict
            [(str "metrics", vStr metrics),
             (str "visualization", vStr visualization)]),
         (str "security", vDict
            [(str "scanner", vStr security),
             (str "policies", vStr (str "CIS Benchmarks"))]),
         (str "ci_cd", vDict
            [(str "provider", vStr (cicdTool parts))])]),
     (str "decisions_justification", vDict
        [(str "runtime", vStr (str "Decisión basada en stack propuesto: " ++ runtime)),
         (str "framework", vStr (str "Decisión basada en stack propuesto: " ++ framework)),
         (str "database", vStr (str "Decisión basada en stack propuesto: " ++ database)),
         (str "monitoring", vStr (str "Decisión basada en stack propuesto: " ++ metrics ++ str " + " ++ visualization)),
         (str "security", vStr (str "Decisión basada en stack propuesto: " ++ security)),
         (str "deployment", vStr (str "Decisión basada en deployment: " ++ deployment ++ str " en " ++ environment))]),
     (str "metadata", vDict
        [(str "ai_model", vStr (str "gemini-2.5-flash")),
         (str "mode", vStr (str "ADK Interactive")),
         (str "decision_timestamp", vStr now)])]
  if caps.isEmpty then vDict base
  else vDict (base ++
    [(str "features", vDict
        [(str "self_service", vDict
            [(str "enabled", vBool true),
             (str "capabilities", vList caps)])])])

/-- The validation error dictionary of save_platform_config lines 127-132. -/
def missingFieldsError (missing : List Str) : Val :=
  vDict [(str "status", vStr (str "error")),
         (str "message", vStr (str "Missing required fields: " ++
            joinSep (str ", ") missing ++ str ". Please provide complete stack_summary.")),
         (str "example", vStr (str "Runtime: Go 1.21 | Framework: Gin | Database: PostgreSQL | Cache: Redis | Monitoring: Prometheus+Grafana | Security: Trivy | CI/CD: Jenkins | Deployment: Docker Compose | Environment: Local"))]

/-- save_platform_config of platform_architect/agent.py (the interactive
agent tool, lines 27-239).  now stands for datetime.utcnow().isoformat();
the debug log content is stored opaquely because no tool reads it back. -/
def save_platform_config (env : Env) (now : Str) (stack_summary : Str) (fs : FS) : ToolOut :=
  let d := archOutputDir env
  let taskPath : FPath := ⟨d, str "user-task.txt"⟩
  let logPath : FPath := ⟨d, str "platform-architect-debug.log"⟩
  let fs1 := fs.write logPath (vStr (str "platform-architect-debug-log"))
  let user_task :=
    match fs.read taskPath with
    | some (vStr t) => trim t
    | _ => []
  let caps := if user_task.isEmpty then [] else detectCapabilities user_task
  let parts := parseParts stack_summary
  let missing := missingFields parts
  if missing.isEmpty then
    let config := buildConfig now caps parts
    let yamlPath : FPath := ⟨d, str "platform-config.yaml"⟩
    let jsonPath : FPath := ⟨d, str "platform-decisions.json"⟩
    { res := vDict
        [(str "status", vStr (str "success")),
         (str "yaml_path", vStr (d ++ str "/platform-config.yaml")),
         (str "json_path", vStr (d ++ str "/platform-decisions.json")),
         (str "runtime", vStr ((partsGet parts (str "runtime")).getD [])),
         (str "framework", vStr ((partsGet parts (str "framework")).getD [])),
         (str "database", vStr ((partsGet parts (str "database")).getD [])),
         (str "self_service_capabilities_detected", vNat caps.length),
         (str "capabilities", vList (caps.map (fun c => dGetD c (str "type") vNull)))],
      fs := (fs1.write yamlPath config).write jsonPath config,
      effs := [Effect.writeF logPath, Effect.readF taskPath, Effect.writeF logPath,
               Effect.writeF yamlPath, Effect.writeF jsonPath] }
  else
    { res := missingFieldsError missing,
      fs := fs1,
      effs := [Effect.writeF logPath, Effect.readF taskPath] }

/-- get_current_config of platform_architect/agent.py lines 242-264. -/
def get_current_config (env : Env) (fs : FS) : ToolOut :=
  let d := archOutputDir env
  let p : FPath := ⟨d, str "platform-config.yaml"⟩
  match fs.read p with
  | none =>
      { res := vDict [(str "status", vStr (str "not_found")),
                      (str "message", vStr (str "No se ha generado ninguna configuración aún. Usa save_platform_config primero."))],
        fs := fs, effs := [Effect.readF p] }
  | some c =>
      { res := vDict [(str "status", vStr (str "found")), (str "config", c)],
        fs := fs, effs := [Effect.readF p] }

/-- explain_decision of platform_architect/agent.py lines 267-302. -/
def explain_decision (env : Env) (decision_type : Str) (fs : FS) : ToolOut :=
  let d := archOutputDir env
  let p : FPath := ⟨d, str "platform-config.yaml"⟩
  match fs.read p with
  | none =>
      { res := vDict [(str "status", vStr (str "error")),
                      (str "message", vStr (str "No hay configuración generada aún."))],
        fs := fs, effs := [Effect.readF p] }
  | some c =>
      let justifications := dGetD c (str "decisions_justification") (vDict [])
      match dGet justifications decision_type with
      | none =>
          { res := vDict [(str "status", vStr (str "error")),
                          (str "message", vStr (str "Tipo de decisión no encontrado. Opciones: runtime, framework, database, monitoring, security"))],
            fs := fs, effs := [Effect.readF p] }
      | some j =>
          let sv := (dGet (dGetD c (str "stack") (vDict [])) decision_type).getD vNull
          let cv := (dGet (dGetD c (str "components") (vDict [])) decision_type).getD vNull
          { res := vDict [(str "status", vStr (str "success")),
                          (str "decision_type", vStr decision_type),
                          (str "justification", j),
                          (str "chosen_value", if sv.truthy then sv else cv)],
            fs := fs, effs := [Effect.readF p] }

/-!  Infrastructure agent, infrastructure/agent.py.  -/

/-- Extract a string value with a default (the source indexes config
dicts whose leaves are strings). -/
def asStrD (v : Option Val) (dflt : Str) : Str :=
  match v with
  | some (vStr s) => s
  | _ => dflt

/-- parse_provider_string, infrastructure/agent.py lines 130-143: match
the provider string against the pattern Name (Image: img) with re.match;
on a match return the stripped base name and the stripped image, else the
string unchanged and None.  The regex requires at least one character
before the parenthesis and at least one character before the closing
parenthesis. -/
def parse_provider_string (s : Str) : Str × Option Str :=
  if s.isEmpty || s = str "Unknown" then (s, none)
  else
    match splitFirst '(' s with
    | none => (s, none)
    | some (base, after) =>
        if base.isEmpty then (s, none)
        else if startsWith (str "Image:") after then
          match splitFirst ')' (after.drop 6) with
          | none => (s, none)
          | some (content, _) =>
              if content.isEmpty then (s, none)
              else (trim base, some (trim content))
        else (s, none)

/-- Lookup in an image map that stores explicit None entries (dict.get:
a missing key and a None value both give None). -/
def imageMapGet : List (Str × Option Str) → Str → Option Str
  | [], _ => none
  | (k, v) :: rest, key => if k = key then v else imageMapGet rest key

/-- scanner_images, infrastructure/agent.py lines 150-156 (AWS Inspector
has no public image). -/
def scanner_images : List (Str × Option Str) :=
  [(str "Trivy", some (str "aquasec/trivy:latest")),
   (str "Snyk", some (str "snyk/snyk:latest")),
   (str "Grype", some (str "anchore/grype:latest")),
   (str "Clair", some (str "quay.io/coreos/clair:latest")),
   (str "AWS Inspector", none)]

/-- cicd_images, infrastructure/agent.py lines 159-164. -/
def cicd_images : List (Str × Option Str) :=
  [(str "Jenkins", some (str "jenkins/jenkins:lts")),
   (str "GitHub Actions", some (str "nektos/act-environments-ubuntu:18.04")),
   (str "GitLab CI", some (str "gitlab/gitlab-runner:latest")),
   (str "CircleCI", some (str "circleci/circleci-cli:latest"))]

/-- Python x or y where x is a possibly empty string: an empty explicit
image falls back to the mapping (line 167). -/
def orElseStr (a b : Option Str) : Option Str :=
  match a with
  | some s => if s.isEmpty then b else some s
  | none => b

/-- Scanner name and image resolution, lines 146 and 167. -/
def resolveScanner (field : Str) : Str × Option Str :=
  let p := parse_provider_string field
  (p.1, orElseStr p.2 (imageMapGet scanner_images p.1))

/-- CI/CD provider and image resolution, lines 147 and 168. -/
def resolveCicd (field : Str) : Str × Option Str :=
  let p := parse_provider_string field
  (p.1, orElseStr p.2 (imageMapGet cicd_images p.1))

/-- Application image choice, lines 173-179. -/
def appImageFor (runtime : Str) : Str :=
  if !runtime.isEmpty && containsSub (str "python") (lower runtime) then
    let version :=
      if containsSub (str "3.11") runtime then str "3.11"
      else if containsSub (str "3.12") runtime then str "3.12"
      else str "3.11"
    str "python:" ++ version ++ str "-slim"
  else str "python:3.11-slim"

/-- db_images lookup with default, lines 182-187 and 202. -/
def dbImageFor (c : Str) : Str :=
  if c = str "PostgreSQL" then str "postgres:15-alpine"
  else if c = str "MySQL" then str "mysql:8-debian"
  else if c = str "MongoDB" then str "mongo:7"
  else if c = str "MariaDB" then str "mariadb:11"
  else str "postgres:15-alpine"

/-- cache_images lookup with default, lines 190-193 and 203. -/
def cacheImageFor (c : Str) : Str :=
  if c = str "Redis" then str "redis:7-alpine"
  else if c = str "Memcached" then str "memcached:1.6-alpine"
  else str "redis:7-alpine"

/-- Add a networks entry to a service dict when a network is known
(case 2 lines 401-402; in the generated template every service carries
the idp_network entry). -/
def withNet (v : Val) (net : Option Val) : Val :=
  match net, v with
  | some n, vDict l => vDict (dictSet l (str "networks") n)
  | _, _ => v

/-- The security-scanner service block, template lines 264-273 and
case 2 lines 395-400. -/
def scannerServiceVal (name : Str) (image : Str) : Val :=
  vDict [(str "image", vStr image),
         (str "container_name", vStr (lower name ++ str "-scanner")),
         (str "volumes", vList [vStr (str "./:/scan")]),
         (str "command", vList [vStr (str "--help")])]

/-- The ci-runner service block per provider, template lines 280-333 and
case 2 lines 408-445. -/
def cicdServiceVal (provider : Str) (image : Str) : Val :=
  if provider = str "Jenkins" then
    vDict [(str "image", vStr image),
           (str "container_name", vStr (str "jenkins")),
           (str "ports", vList [vStr (str "8080:8080"), vStr (str "50000:50000")]),
           (str "volumes", vList
              [vStr (str "jenkins_data:/var/jenkins_home"),
               vStr (str "../jenkins_home/jobs:/var/jenkins_home/jobs"),
               vStr (str "../:/var/jenkins_home/workspace/IDP-Pipeline:rw"),
               vStr (str "/var/run/docker.sock:/var/run/docker.sock")]),
           (str "environment", vList [vStr (str "JAVA_OPTS=-Djenkins.install.runSetupWizard=false")]),
           (str "user", vStr (str "root"))]
  else if provider = str "GitHub Actions" then
    vDict [(str "image", vStr image),
           (str "container_name", vStr (str "act-runner")),
           (str "volumes", vList [vStr (str "./:/workspace"), vStr (str "/var/run/docker.sock:/var/run/docker.sock")]),
           (str "working_dir", vStr (str "/workspace"))]
  else if provider = str "GitLab CI" then
    vDict [(str "image", vStr image),
           (str "container_name", vStr (str "gitlab-runner")),
           (str "volumes", vList [vStr (str "./:/workspace"), vStr (str "/var/run/docker.sock:/var/run/docker.sock")])]
  else
    vDict [(str "image", vStr image),
           (str "container_name", vStr (str "ci-runner")),
           (str "volumes", vList [vStr (str "./:/workspace")])]

/-- The web-portal service block of the generated template, lines 340-356. -/
def case1PortalService : Val :=
  vDict [(str "image", vStr (str "python:3.11-slim")),
         (str "container_name", vStr (str "idp-portal")),
         (str "ports", vList [vStr (str "8001:8001")]),
         (str "volumes", vList [vStr (str "../portal:/app"), vStr (str "..:/app/outputs")]),
         (str "working_dir", vStr (str "/app")),
         (str "command", vList [vStr (str "sh"), vStr (str "-c"), vStr (str "pip install and run uvicorn")]),
         (str "depends_on", vList [vStr (str "app"), vStr (str "database")])]

/-- The web-portal service block added to caller content, lines 453-461. -/
def case2PortalService : Val :=
  vDict [(str "image", vStr (str "python:3.11-slim")),
         (str "container_name", vStr (str "idp-portal")),
         (str "ports", vList [vStr (str "8001:8001")]),
         (str "volumes", vList [vStr (str "./portal:/app"), vStr (str "..:/app/outputs")]),
         (str "working_dir", vStr (str "/app")),
         (str "command", vList [vStr (str "sh"), vStr (str "-c"), vStr (str "pip install and run uvicorn")]),
         (str "depends_on", vList [vStr (str "app"), vStr (str "database")])]

/-- The generated default compose document of CASE 1, lines 206-377,
modelled structurally (the source assembles the same document as a YAML
template string). -/
def case1Compose (dbImage cacheImage appImg : Str) (scannerName : Str)
    (scannerImage : Option Str) (cicdProvider : Str) (cicdImage : Option Str)
    (portalExists : Bool) : Val :=
  let net := some (vList [vStr (str "idp_network")])
  let base : List (Str × Val) :=
    [(str "app", withNet (vDict
        [(str "image", vStr appImg),
         (str "container_name", vStr (str "idp-dummy-app")),
         (str "ports", vList [vStr (str "8888:8888")]),
         (str "command", vList [vStr (str "python"), vStr (str "-m"), vStr (str "http.server"), vStr (str "8888")])]) net),
     (str "database", withNet (vDict
        [(str "image", vStr dbImage),
         (str "container_name", vStr (str "database")),
         (str "ports", vList [vStr (str "5432:5432")]),
         (str "environment", vList [vStr (str "POSTGRES_PASSWORD=postgres"), vStr (str "POSTGRES_DB=idp")]),
         (str "volumes", vList [vStr (str "db_data:/var/lib/postgresql/data")])]) net),
     (str "cache", withNet (vDict
        [(str "image", vStr cacheImage),
         (str "container_name", vStr (str "cache")),
         (str "ports", vList [vStr (str "6379:6379")])]) net),
     (str "prometheus", withNet (vDict
        [(str "image", vStr (str "prom/prometheus:latest")),
         (str "container_name", vStr (str "prometheus")),
         (str "ports", vList [vStr (str "9090:9090")]),
         (str "volumes", vList [vStr (str "prometheus_data:/prometheus")])]) net),
     (str "grafana", withNet (vDict
        [(str "image", vStr (str "grafana/grafana:latest")),
         (str "container_name", vStr (str "grafana")),
         (str "ports", vList [vStr (str "3000:3000")]),
         (str "environment", vList [vStr (str "GF_SECURITY_ADMIN_PASSWORD=admin")]),
         (str "volumes", vList [vStr (str "grafana_data:/var/lib/grafana")])]) net)]
  let s1 := base ++
    (match scannerImage with
     | some i => [(str "security-scanner", withNet (scannerServiceVal scannerName i) net)]
     | none => [])
  let s2 := s1 ++
    (match cicdImage with
     | some i => [(str "ci-runner", withNet (cicdServiceVal cicdProvider i) net)]
     | none => [])
  let s3 := s2 ++ (if portalExists then [(str "web-portal", withNet case1PortalService net)] else [])
  let vols : List (Str × Val) :=
    [(str "db_data", vNull), (str "grafana_data", vNull), (str "prometheus_data", vNull)] ++
    (if cicdProvider = str "Jenkins" && cicdImage.isSome then [(str "jenkins_data", vNull)] else [])
  vDict [(str "version", vStr (str "3.8")),
         (str "services", vDict s3),
         (str "volumes", vDict vols),
         (str "networks", vDict [(str "idp_network", vDict [(str "driver", vStr (str "bridge"))])])]

/-- The Python membership test key in value (lines 386, 393, 405, 423,
452): key presence for a dict, substring search for a string, element
equality for a list; it raises TypeError on None, booleans and numbers,
modelled as None. -/
def memb (k : Str) : Val → Option Bool
  | vDict l => some (lookupD l k).isSome
  | vStr s => some (containsSub k s)
  | vList xs => some (xs.any (fun x =>
      match x with
      | vStr s => decide (s = k)
      | _ => false))
  | vNull => none
  | vBool _ => none
  | vNat _ => none

/-- The Python subscript value[key]: it raises KeyError when a dict
lacks the key and TypeError on every non-dict, modelled as None. -/
def subscriptV (v : Val) (k : Str) : Option Val :=
  match v with
  | vDict l => lookupD l k
  | _ => none

/-- The Python item assignment value[key] = x: it raises TypeError on
every non-dict, modelled as None. -/
def assignV (v : Val) (k : Str) (x : Val) : Option Val :=
  match v with
  | vDict l => some (vDict (dictSet l k x))
  | _ => none

/-- Services of a compose document when they form a mapping. -/
def servicesOf (compose : Val) : Option (List (Str × Val)) :=
  match dGet compose (str "services") with
  | some (vDict svcs) => some svcs
  | _ => none

/-- The networks entry added to a freshly inserted service block when
the first network found is truthy (lines 401-402, 447-448, 462-463: the
assignment is guarded by if first_network). -/
def withNetIf (blk : Val) (net : Val) : Val :=
  if net.truthy then
    match blk with
    | vDict l => vDict (dictSet l (str "networks") net)
    | _ => blk
  else blk

/-- The loop over the services looking for the first networks entry,
lines 387-390; a service value on which the membership test or the
subscript raises aborts the whole CASE 2 (None); vNull stands for no
network found. -/
def findFirstNetE : List (Str × Val) → Option Val
  | [] => some vNull
  | (_, sc) :: rest =>
      match memb (str "networks") sc with
      | none => none
      | some true => subscriptV sc (str "networks")
      | some false => findFirstNetE rest

/-- first_network of CASE 2, lines 385-390: the networks membership test
runs on the parsed document unconditionally (raising on None), the
services subscript raises when the key is missing, and iterating a
truthy non-dict services value raises (items is only defined on dicts);
None models the raise. -/
def firstNetworkOfE (compose : Val) : Option Val :=
  match memb (str "networks") compose with
  | none => none
  | some false => some vNull
  | some true =>
      match subscriptV compose (str "services") with
      | none => none
      | some sv =>
          if sv.truthy then
            match sv with
            | vDict svcs => findFirstNetE svcs
            | _ => none
          else some vNull

/-- compose_data with one service block assigned into its services value
(plus the guarded networks entry): raising statements, sequenced with
bind, abort the CASE 2. -/
def addServiceE (compose : Val) (svcName : Str) (blk : Val) (net : Val) : Option Val :=
  (subscriptV compose (str "services")).bind (fun sv =>
    (assignV sv svcName (withNetIf blk net)).bind (fun sv2 =>
      assignV compose (str "services") sv2))

/-- The CI/CD runner insertion body, lines 407-445: for Jenkins the
jenkins_data volume update (line 425) raises TypeError when the volumes
value is not a mapping, which discards every insertion made so far. -/
def cicdInsertE (compose : Val) (prov img : Str) (net : Val) : Option Val :=
  (addServiceE compose (str "ci-runner") (cicdServiceVal prov img) net).bind (fun c2 =>
    if prov = str "Jenkins" then
      (memb (str "volumes") c2).bind (fun b =>
        (if b then some c2 else assignV c2 (str "volumes") (vDict [])).bind (fun c3 =>
          (subscriptV c3 (str "volumes")).bind (fun vol =>
            (assignV vol (str "jenkins_data") vNull).bind (fun vol2 =>
              assignV c3 (str "volumes") vol2))))
    else some c2)

/-- Scanner insertion of CASE 2, lines 393-402; the Bool records whether
scanner_service_name was assigned (line 394, which runs before the
statement that may raise, so the name survives the except). -/
def case2ScannerPart (compose : Val) (scannerName : Str) (scannerImage : Option Str)
    (net : Val) : Option Val × Bool :=
  match scannerImage with
  | none => (some compose, false)
  | some img =>
      if compose.truthy then
        match memb (str "services") compose with
        | none => (none, false)
        | some false => (some compose, false)
        | some true =>
            (addServiceE compose (str "security-scanner") (scannerServiceVal scannerName img) net,
             true)
      else (some compose, false)

/-- CI/CD runner insertion of CASE 2, lines 405-448; the Bool records
whether cicd_service_name was assigned (line 406). -/
def case2CicdPart (compose : Val) (prov : Str) (cicdImage : Option Str)
    (net : Val) : Option Val × Bool :=
  match cicdImage with
  | none => (some compose, false)
  | some img =>
      if compose.truthy then
        match memb (str "services") compose with
        | none => (none, false)
        | some false => (some compose, false)
        | some true => (cicdInsertE compose prov img net, true)
      else (some compose, false)

/-- Web-portal insertion of CASE 2, lines 450-463. -/
def case2PortalPart (compose : Val) (portalExists : Bool) (net : Val) : Option Val :=
  match portalExists with
  | false => some compose
  | true =>
      if compose.truthy then
        match memb (str "services") compose with
        | none => none
        | some false => some compose
        | some true => addServiceE compose (str "web-portal") case2PortalService net
      else some compose

/-- Outcome of the CASE 2 try block (lines 381-469) of
save_docker_compose: the modified document when no statement raised, or
None when one did, in which case the except at line 467 keeps the
original caller text; plus whether the two service-name locals had been
assigned before any raise (the metadata written afterwards reads them). -/
structure Case2Out where
  result : Option Val
  scannerNamed : Bool
  cicdNamed : Bool

/-- CASE 2 of save_docker_compose, lines 379-466: insert the scanner,
the CI/CD runner and the web-portal service into the parsed caller
document, aborting everything at the first raising statement. -/
def case2Run (compose : Val) (scannerName : Str) (scannerImage : Option Str)
    (prov : Str) (cicdImage : Option Str) (portalExists : Bool) : Case2Out :=
  match firstNetworkOfE compose with
  | none => ⟨none, false, false⟩
  | some net =>
      match case2ScannerPart compose scannerName scannerImage net with
      | (none, sn) => ⟨none, sn, false⟩
      | (some c1, sn) =>
          match case2CicdPart c1 prov cicdImage net with
          | (none, cn) => ⟨none, sn, cn⟩
          | (some c2, cn) =>
              match case2PortalPart c2 portalExists net with
              | none => ⟨none, sn, cn⟩
              | some c3 => ⟨some c3, sn, cn⟩

/-- get_platform_config of infrastructure/agent.py lines 69-95. -/
def infra_get_platform_config (env : Env) (fs : FS) : ToolOut :=
  let d := appOutputDir env
  let p : FPath := ⟨d, str "platform-config.yaml"⟩
  match fs.read p with
  | none =>
      { res := vDict [(str "error", vStr (str "Platform config no encontrado. Platform Architect debe ejecutarse primero."))],
        fs := fs, effs := [Effect.readF p] }
  | some config =>
      { res := vDict
          [(str "status", vStr (str "success")),
           (str "config", config),
           (str "deployment_target", vStr (asStrD (dGetPath config [str "infrastructure", str "deployment_target"]) (str "Unknown"))),
           (str "deployment_environment", vStr (asStrD (dGetPath config [str "infrastructure", str "deployment_environment"]) (str "Unknown"))),
           (str "runtime", (dGetPath config [str "stack", str "runtime"]).getD vNull),
           (str "framework", (dGetPath config [str "stack", str "framework"]).getD vNull),
           (str "database", (dGetPath config [str "stack", str "database"]).getD vNull),
           (str "cache", (dGetPath config [str "stack", str "cache"]).getD vNull)],
        fs := fs, effs := [Effect.readF p] }

/-- The infrastructure-decisions.json metadata document, lines 525-554:
the scanner_service and runner_service fields hold the service-name
locals, which were assigned only when the corresponding insertion branch
was actually entered (they survive a later raise inside the try). -/
def infraMetadata (d : Str) (now : Str) (scannerName : Str) (scannerImage : Option Str)
    (scannerNamed : Bool) (cicdProvider : Str) (cicdImage : Option Str) (cicdNamed : Bool)
    (setupScript : Bool) : Val :=
  vDict
    [(str "infrastructure", vDict
        [(str "type", vStr (str "docker-compose")),
         (str "created_at", vStr now),
         (str "generated_by", vStr (str "Infrastructure Agent (ADK)"))]),
     (str "security_scanner", vDict
        [(str "scanner_chosen", vStr scannerName),
         (str "scanner_image", (scannerImage.map vStr).getD vNull),
         (str "scanner_service", if scannerNamed then vStr (str "security-scanner") else vNull),
         (str "available", vBool scannerImage.isSome)]),
     (str "ci_cd_runner", vDict
        [(str "provider", vStr cicdProvider),
         (str "runner_image", (cicdImage.map vStr).getD vNull),
         (str "runner_service", if cicdNamed then vStr (str "ci-runner") else vNull),
         (str "available", vBool cicdImage.isSome),
         (str "has_web_ui", vBool (cicdProvider = str "Jenkins")),
         (str "ui_url", if cicdProvider = str "Jenkins" then vStr (str "http://localhost:8080") else vNull)]),
     (str "files_generated", vDict
        [(str "docker_compose", vStr (str "docker-compose/app-stack.yml")),
         (str "docker_compose_absolute", vStr (d ++ str "/docker-compose/app-stack.yml")),
         (str "setup_jenkins_script", if setupScript then vStr (str "setup-jenkins.sh") else vNull)]),
     (str "metadata", vDict
        [(str "ai_model", vStr (str "gemini-2.5-flash")),
         (str "decision_timestamp", vStr now)])]

/-- save_docker_compose of infrastructure/agent.py lines 98-566.  The
parsed argument is the result of yaml.safe_load on yaml_content when the
custom-content case parses it (None models a parsing exception); the
whole CASE 2 insertion pass sits inside a try whose except keeps the
original caller text, so both a parse failure and a raise inside any
insertion statement leave yaml_content verbatim; generated shell script
contents are stored opaquely since no tool reads them back. -/
def save_docker_compose (env : Env) (now : Str) (yaml_content : Str)
    (parsed : Option Val) (fs : FS) : ToolOut :=
  let d := appOutputDir env
  let configPath : FPath := ⟨d, str "platform-config.yaml"⟩
  let config? := fs.read configPath
  let scannerField := asStrD (config?.bind (fun c => dGetPath c [str "components", str "security", str "scanner"])) (str "Unknown")
  let cicdField := asStrD (config?.bind (fun c => dGetPath c [str "components", str "ci_cd", str "provider"])) (str "Unknown")
  let runtime := asStrD (config?.bind (fun c => dGetPath c [str "stack", str "runtime"])) (str "Unknown")
  let scanner := resolveScanner scannerField
  let cicd := resolveCicd cicdField
  let portalExists := fs.pathExists ⟨d, str "portal/main.py"⟩
  let generated := yaml_content = str "generate_default" || yaml_content.length < 50
  let c2out : Case2Out :=
    match parsed with
    | none => ⟨none, false, false⟩
    | some v => case2Run v scanner.1 scanner.2 cicd.1 cicd.2 portalExists
  let content :=
    if generated then
      let dbChoice := asStrD (config?.bind (fun c => dGetPath c [str "stack", str "database"])) (str "PostgreSQL")
      let cacheChoice := asStrD (config?.bind (fun c => dGetPath c [str "stack", str "cache"])) (str "Redis")
      case1Compose (dbImageFor dbChoice) (cacheImageFor cacheChoice) (appImageFor runtime)
        scanner.1 scanner.2 cicd.1 cicd.2 portalExists
    else c2out.result.getD (vStr yaml_content)
  let scannerNamed := if generated then scanner.2.isSome else c2out.scannerNamed
  let cicdNamed := if generated then cicd.2.isSome else c2out.cicdNamed
  let outPath : FPath := ⟨d, str "docker-compose/app-stack.yml"⟩
  let setupScript := cicd.1 = str "Jenkins" && cicd.2.isSome
  let setupPath : FPath := ⟨d, str "setup-jenkins.sh"⟩
  let metadata := infraMetadata d now scanner.1 scanner.2 scannerNamed cicd.1 cicd.2 cicdNamed setupScript
  let jsonPath : FPath := ⟨d, str "infrastructure-decisions.json"⟩
  let fs1 := fs.write outPath content
  let fs2 := if setupScript then fs1.write setupPath (vStr (str "setup-jenkins-script")) else fs1
  let fs3 := fs2.write jsonPath metadata
  { res := vDict
      [(str "status", vStr (str "success")),
       (str "type", vStr (str "docker-compose")),
       (str "file_path", vStr (d ++ str "/docker-compose/app-stack.yml")),
       (str "metadata_path", vStr (d ++ str "/infrastructure-decisions.json")),
       (str "scanner_service", if scannerNamed then vStr (str "security-scanner") else vNull)],
    fs := fs3,
    effs :=
      [Effect.readF configPath] ++
      (if generated then [Effect.readF configPath] else []) ++
      [Effect.readF ⟨d, str "portal/main.py"⟩, Effect.writeF outPath] ++
      (if setupScript then [Effect.writeF setupPath, Effect.chmodF setupPath] else []) ++
      [Effect.writeF jsonPath] }

/-- save_kubernetes_manifests, lines 569-584 (a literal return, no side
effects). -/
def save_kubernetes_manifests (manifests_yaml : Str) : Val :=
  vDict [(str "status", vStr (str "not_implemented")),
         (str "message", vStr (str "Kubernetes manifests generation is not implemented yet.")),
         (str "technology", vStr (str "Kubernetes")),
         (str "suggestion", vStr (str "Try save_docker_compose() as alternative"))]

/-- save_terraform_config, lines 587-602. -/
def save_terraform_config (terraform_hcl : Str) : Val :=
  vDict [(str "status", vStr (str "not_implemented")),
         (str "message", vStr (str "Terraform configuration generation is not implemented yet.")),
         (str "technology", vStr (str "Terraform")),
         (str "suggestion", vStr (str "Try save_docker_compose() as alternative"))]

/-- save_helm_charts, lines 605-620. -/
def save_helm_charts (chart_yaml : Str) : Val :=
  vDict [(str "status", vStr (str "not_implemented")),
         (str "message", vStr (str "Helm charts generation is not implemented yet.")),
         (str "technology", vStr (str "Helm")),
         (str "suggestion", vStr (str "Try save_kubernetes_manifests() or save_docker_compose() as alternative"))]

/-- save_cloudformation_template, lines 623-638. -/
def save_cloudformation_template (template_json : Str) : Val :=
  vDict [(str "status", vStr (str "not_implemented")),
         (str "message", vStr (str "AWS CloudFormation template generation is not implemented yet.")),
         (str "technology", vStr (str "AWS CloudFormation")),
         (str "suggestion", vStr (str "Try save_terraform_config() or save_docker_compose() as alternative"))]

/-!  Security agent, security/agent.py.  -/

/-- get_platform_config of security/agent.py lines 27-50. -/
def sec_get_platform_config (env : Env) (fs : FS) : ToolOut :=
  let d := appOutputDir env
  let p : FPath := ⟨d, str "platform-config.yaml"⟩
  match fs.read p with
  | none =>
      { res := vDict [(str "error", vStr (str "Platform config no encontrado. Platform Architect debe ejecutarse primero."))],
        fs := fs, effs := [Effect.readF p] }
  | some config =>
      { res := vDict
          [(str "status", vStr (str "success")),
           (str "config", config),
           (str "security_scanner", (dGetPath config [str "components", str "security", str "scanner"]).getD vNull),
           (str "runtime", (dGetPath config [str "stack", str "runtime"]).getD vNull),
           (str "framework", (dGetPath config [str "stack", str "framework"]).getD vNull)],
        fs := fs, effs := [Effect.readF p] }

/-- get_infrastructure_decisions of security/agent.py lines 53-77. -/
def get_infrastructure_decisions (env : Env) (fs : FS) : ToolOut :=
  let d := appOutputDir env
  let p : FPath := ⟨d, str "infrastructure-decisions.json"⟩
  match fs.read p with
  | none =>
      { res := vDict [(str "error", vStr (str "Infrastructure decisions no encontrado. Infrastructure Agent debe ejecutarse primero."))],
        fs := fs, effs := [Effect.readF p] }
  | some decisions =>
      { res := vDict
          [(str "status", vStr (str "success")),
           (str "decisions", decisions),
           (str "scanner_service", (dGetPath decisions [str "security_scanner", str "scanner_service"]).getD vNull),
           (str "scanner_available", dGetD (dGetD decisions (str "security_scanner") (vDict [])) (str "available") (vBool false)),
           (str "scanner_image", (dGetPath decisions [str "security_scanner", str "scanner_image"]).getD vNull),
           (str "docker_compose_path", (dGetPath decisions [str "files_generated", str "docker_compose_absolute"]).getD vNull)],
        fs := fs, effs := [Effect.readF p] }

/-- Outcome of a subprocess.run call, supplied as a parameter because the
subprocess runs outside the embedded state: either it completed with an
exit code and (for Trivy) the parsed JSON of its stdout, or it raised
(timeout or any other exception). -/
inductive SubprocResult where
  | completed : Nat → Val → SubprocResult
  | failedToRun : SubprocResult

/-- The security-report.json written by run_trivy_scan, lines 142-158. -/
def trivyReport (now : Str) (exitCode : Nat) (vulnCount : Nat) (scanData : Val) : Val :=
  vDict
    [(str "security_scan", vDict
        [(str "tool", vStr (str "Trivy")),
         (str "execution_method", vStr (str "docker-compose service")),
         (str "scan_date", vStr now),
         (str "analyzed_by", vStr (str "Security Agent (ADK)")),
         (str "exit_code", vNat exitCode)]),
     (str "findings", vDict
        [(str "vulnerabilities_found", vNat vulnCount),
         (str "scan_data", scanData)]),
     (str "metadata", vDict
        [(str "ai_model", vStr (str "gemini-2.5-flash")),
         (str "analysis_timestamp", vStr now)])]

/-- run_trivy_scan of security/agent.py lines 80-191: read the
infrastructure decisions, and when the scanner service is available run
it through docker compose as an external process. -/
def run_trivy_scan (env : Env) (now : Str) (sub : SubprocResult) (fs : FS) : ToolOut :=
  let d := appOutputDir env
  let infra := get_infrastructure_decisions env fs
  if (dGet infra.res (str "error")).isSome then
    { res := vDict [(str "status", vStr (str "error")),
                    (str "message", vStr (str "Cannot run scan: Infrastructure decisions no encontrado. Infrastructure Agent debe ejecutarse primero."))],
      fs := fs, effs := infra.effs }
  else if !(dGetD infra.res (str "scanner_available") vNull).truthy then
    { res := vDict [(str "status", vStr (str "error")),
                    (str "scanner", vStr (str "Trivy")),
                    (str "message", vStr (str "Trivy scanner service not available in docker-compose. Infrastructure Agent may not have generated it."))],
      fs := fs, effs := infra.effs }
  else
    let svc := dGetD infra.res (str "scanner_service") vNull
    let dcPath := dGetD infra.res (str "docker_compose_path") vNull
    if !svc.truthy || !dcPath.truthy then
      { res := vDict [(str "status", vStr (str "error")),
                      (str "message", vStr (str "Scanner service or docker-compose path not found in infrastructure decisions"))],
        fs := fs, effs := infra.effs }
    else
      let cmd := [str "docker", str "compose", str "-f", asStrD (some dcPath) [],
                  str "run", str "--rm", asStrD (some svc) [],
                  str "filesystem", str "--format", str "json", str "/scan"]
      match sub with
      | SubprocResult.completed code scanData =>
          if code = 0 || code = 1 then
            let vulnCount :=
              match dGet scanData (str "Results") with
              | some (vList l) => l.length
              | _ => 0
            let reportPath : FPath := ⟨d, str "security-report.json"⟩
            { res := vDict [(str "status", vStr (str "success")),
                            (str "scanner", vStr (str "Trivy")),
                            (str "execution_method", vStr (str "docker-compose service")),
                            (str "vulnerabilities_found", vNat vulnCount),
                            (str "report_path", vStr (d ++ str "/security-report.json")),
                            (str "exit_code", vNat code)],
              fs := fs.write reportPath (trivyReport now code vulnCount scanData),
              effs := infra.effs ++ [Effect.execP cmd, Effect.writeF reportPath] }
          else
            { res := vDict [(str "status", vStr (str "error")),
                            (str "scanner", vStr (str "Trivy")),
                            (str "message", vStr (str "Trivy scan failed"))],
              fs := fs, effs := infra.effs ++ [Effect.execP cmd] }
      | SubprocResult.failedToRun =>
          { res := vDict [(str "status", vStr (str "error")),
                          (str "scanner", vStr (str "Trivy")),
                          (str "message", vStr (str "Error running scan"))],
            fs := fs, effs := infra.effs ++ [Effect.execP cmd] }

/-- run_snyk_scan of security/agent.py lines 194-249: same shape, the
scan is executed through docker compose; the success branch does not
inspect the exit code. -/
def run_snyk_scan (env : Env) (sub : SubprocResult) (fs : FS) : ToolOut :=
  let infra := get_infrastructure_decisions env fs
  if (dGet infra.res (str "error")).isSome then
    { res := vDict [(str "status", vStr (str "error")),
                    (str "message", vStr (str "Cannot run scan: Infrastructure decisions no encontrado. Infrastructure Agent debe ejecutarse primero."))],
      fs := fs, effs := infra.effs }
  else if !(dGetD infra.res (str "scanner_available") vNull).truthy then
    { res := vDict [(str "status", vStr (str "not_implemented")),
                    (str "message", vStr (str "Snyk scanner service not available. Infrastructure Agent did not generate it.")),
                    (str "scanner", vStr (str "Snyk")),
                    (str "suggestion", vStr (str "Try run_trivy_scan() if available, or ask Infrastructure to generate Snyk service"))],
      fs := fs, effs := infra.effs }
  else
    let cmd := [str "docker", str "compose", str "-f",
                asStrD (some (dGetD infra.res (str "docker_compose_path") vNull)) [],
                str "run", str "--rm",
                asStrD (some (dGetD infra.res (str "scanner_service") vNull)) [],
                str "snyk", str "test", str "--json"]
    match sub with
    | SubprocResult.completed _ _ =>
        { res := vDict [(str "status", vStr (str "success")),
                        (str "scanner", vStr (str "Snyk")),
                        (str "execution_method", vStr (str "docker-compose service")),
                        (str "message", vStr (str "Snyk scan completed (implementation pending full parsing)"))],
          fs := fs, effs := infra.effs ++ [Effect.execP cmd] }
    | SubprocResult.failedToRun =>
        { res := vDict [(str "status", vStr (str "error")),
                        (str "scanner", vStr (str "Snyk")),
                        (str "message", vStr (str "Error running Snyk scan"))],
          fs := fs, effs := infra.effs ++ [Effect.execP cmd] }

/-- run_grype_scan of security/agent.py lines 252-264 (a literal return). -/
def run_grype_scan : Val :=
  vDict [(str "status", vStr (str "not_implemented")),
         (str "message", vStr (str "Grype scan execution not fully implemented yet.")),
         (str "scanner", vStr (str "Grype")),
         (str "suggestion", vStr (str "Try run_trivy_scan() as alternative"))]

/-- save_security_report of security/agent.py lines 267-306. -/
def save_security_report (env : Env) (now : Str) (vulnerabilities : Nat)
    (risk_level : Str) (recommendations : Str) (fs : FS) : ToolOut :=
  let d := appOutputDir env
  let p : FPath := ⟨d, str "security-report.json"⟩
  let report := vDict
    [(str "security_scan", vDict
        [(str "scan_date", vStr now),
         (str "analyzed_by", vStr (str "Security Agent (ADK)"))]),
     (str "findings", vDict
        [(str "vulnerabilities_found", vNat vulnerabilities),
         (str "risk_level", vStr risk_level)]),
     (str "ai_analysis", vDict [(str "recommendations", vStr recommendations)]),
     (str "metadata", vDict
        [(str "ai_model", vStr (str "gemini-2.5-flash")),
         (str "analysis_timestamp", vStr now)])]
  { res := vDict [(str "status", vStr (str "success")),
                  (str "report_path", vStr (d ++ str "/security-report.json")),
                  (str "vulnerabilities", vNat vulnerabilities),
                  (str "risk_level", vStr risk_level)],
    fs := fs.write p report, effs := [Effect.writeF p] }

/-!  Observability agent, observability/agent.py.  -/

/-- get_platform_config of observability/agent.py lines 26-59. -/
def obs_get_platform_config (env : Env) (fs : FS) : ToolOut :=
  let d := appOutputDir env
  let p : FPath := ⟨d, str "platform-config.yaml"⟩
  match fs.read p with
  | none =>
      { res := vDict [(str "error", vStr (str "Platform config no encontrado. Platform Architect debe ejecutarse primero."))],
        fs := fs, effs := [Effect.readF p] }
  | some config =>
      let mc := dGetD (dGetD config (str "components") (vDict [])) (str "monitoring") (vDict [])
      let out :=
        match mc with
        | vDict _ =>
            let metrics := asStrD (dGet mc (str "metrics")) (str "Prometheus")
            let vis := asStrD (dGet mc (str "visualization")) (str "Grafana")
            (metrics ++ str "+" ++ vis, metrics, vis)
        | vStr s =>
            let stack := if s.isEmpty then str "Prometheus+Grafana" else s
            ((stack, (splitOnChar '+' stack).getD 0 [],
              if stack.contains '+' then (splitOnChar '+' stack).getD 1 [] else str "Grafana"))
        | _ =>
            let stack := str "Prometheus+Grafana"
            ((stack, (splitOnChar '+' stack).getD 0 [],
              (splitOnChar '+' stack).getD 1 []))
      { res := vDict
          [(str "status", vStr (str "success")),
           (str "config", config),
           (str "monitoring_stack", vStr out.1),
           (str "monitoring_metrics", vStr out.2.1),
           (str "monitoring_visualization", vStr out.2.2)],
        fs := fs, effs := [Effect.readF p] }

/-- setup_prometheus_grafana of observability/agent.py lines 62-174: the
dashboards argument is never used by the source; the dashboard and
prometheus template strings are stored opaquely. -/
def setup_prometheus_grafana (env : Env) (now : Str) (dashboards : Str) (fs : FS) : ToolOut :=
  let d := appOutputDir env
  let appPath : FPath := ⟨d, str "grafana-dashboards/app-metrics.json"⟩
  let sysPath : FPath := ⟨d, str "grafana-dashboards/system-metrics.json"⟩
  let promPath : FPath := ⟨d, str "docker-compose/prometheus.yml"⟩
  let jsonPath : FPath := ⟨d, str "observability-decisions.json"⟩
  let metadata := vDict
    [(str "observability", vDict
        [(str "monitoring_stack", vStr (str "Prometheus+Grafana")),
         (str "dashboards_created", vList [vStr (str "app-metrics.json"), vStr (str "system-metrics.json")]),
         (str "configs_created", vList [vStr (str "prometheus.yml")]),
         (str "created_at", vStr now),
         (str "generated_by", vStr (str "Observability Agent (ADK)"))]),
     (str "metadata", vDict
        [(str "ai_model", vStr (str "gemini-2.5-flash")),
         (str "decision_timestamp", vStr now)])]
  { res := vDict
      [(str "status", vStr (str "success")),
       (str "monitoring_stack", vStr (str "Prometheus+Grafana")),
       (str "dashboards_dir", vStr (d ++ str "/grafana-dashboards")),
       (str "prometheus_config", vStr (d ++ str "/docker-compose/prometheus.yml")),
       (str "metadata_path", vStr (d ++ str "/observability-decisions.json"))],
    fs := ((((fs.write appPath (vStr (str "app-metrics-dashboard"))).write sysPath
        (vStr (str "system-metrics-dashboard"))).write promPath
        (vStr (str "prometheus-config"))).write jsonPath metadata),
    effs := [Effect.writeF appPath, Effect.writeF sysPath, Effect.writeF promPath, Effect.writeF jsonPath] }

/-- setup_datadog of observability/agent.py lines 177-192 (a literal
return). -/
def setup_datadog (config : Str) : Val :=
  vDict [(str "status", vStr (str "not_implemented")),
         (str "message", vStr (str "Datadog monitoring setup is not implemented yet.")),
         (str "monitoring_stack", vStr (str "Datadog")),
         (str "suggestion", vStr (str "Try setup_prometheus_grafana() as alternative"))]

/-- setup_cloudwatch of observability/agent.py lines 195-210. -/
def setup_cloudwatch (config : Str) : Val :=
  vDict [(str "status", vStr (str "not_implemented")),
         (str "message", vStr (str "AWS CloudWatch monitoring setup is not implemented yet.")),
         (str "monitoring_stack", vStr (str "CloudWatch")),
         (str "suggestion", vStr (str "Try setup_prometheus_grafana() as alternative"))]

/-- setup_new_relic of observability/agent.py lines 213-228. -/
def setup_new_relic (config : Str) : Val :=
  vDict [(str "status", vStr (str "not_implemented")),
         (str "message", vStr (str "New Relic monitoring setup is not implemented yet.")),
         (str "monitoring_stack", vStr (str "New Relic")),
         (str "suggestion", vStr (str "Try setup_prometheus_grafana() as alternative"))]

/-!  DevEx agent, devex/agent.py.  -/

/-- Python str.upper. -/
def upper (l : Str) : Str := l.map Char.toUpper

/-- Python split on the two-character separator of save_cli_tool line
175: cli_summary.split(PIPE-SPACE). -/
def splitPipeSpace : Str → List Str
  | [] => [[]]
  | '|' :: ' ' :: rest => [] :: splitPipeSpace rest
  | x :: rest =>
      match splitPipeSpace rest with
      | [] => [[x]]
      | h :: t => (x :: h) :: t

/-- Section parsing of save_cli_tool lines 174-179. -/
def cliParts (cli_summary : Str) : List (Str × Str) :=
  (splitPipeSpace cli_summary).foldl
    (fun acc sect =>
      match splitFirst ':' sect with
      | none => acc
      | some (k, v) => partsSet acc (upper (trim k)) (trim v))
    []

/-- save_cli_tool of devex/agent.py lines 26-224.  Script and README
contents are stored opaquely (no tool reads them back); the default
script interpolates the docker-compose path read from
infrastructure-decisions.json. -/
def save_cli_tool (env : Env) (now : Str) (cli_summary : Str) (fs : FS) : ToolOut :=
  let d := appOutputDir env
  let infraPath : FPath := ⟨d, str "infrastructure-decisions.json"⟩
  let dcPath :=
    match fs.read infraPath with
    | some decisions => asStrD (dGetPath decisions [str "files_generated", str "docker_compose"]) (str "docker-compose.yml")
    | none => str "docker-compose.yml"
  let deflt := cli_summary = str "generate_default" || cli_summary.isEmpty || cli_summary.length < 100
  let script :=
    if deflt then vStr (str "idp-cli-script using " ++ dcPath)
    else vStr ((partsGet (cliParts cli_summary) (str "SCRIPT")).getD (str "#!/bin/bash echo IDP CLI"))
  let readme :=
    if deflt then vStr (str "idp-cli-readme")
    else vStr ((partsGet (cliParts cli_summary) (str "README")).getD (str "# IDP CLI Tool TODO: Add documentation"))
  let commands :=
    if deflt then str "init,build,test,deploy,status,logs,help,up,down,scan"
    else (partsGet (cliParts cli_summary) (str "COMMANDS")).getD (str "init,build,test,deploy,help")
  let cliPath : FPath := ⟨d, str "cli-tool/idp"⟩
  let readmePath : FPath := ⟨d, str "cli-tool/README.md"⟩
  let jsonPath : FPath := ⟨d, str "devex-decisions.json"⟩
  let metadata := vDict
    [(str "devex", vDict
        [(str "cli_tool", vStr (str "idp")),
         (str "created_at", vStr now),
         (str "generated_by", vStr (str "DevEx Agent (ADK Interactive)"))]),
     (str "commands", vDict [(str "description", vStr commands)]),
     (str "metadata", vDict
        [(str "ai_model", vStr (str "gemini-2.5-flash")),
         (str "decision_timestamp", vStr now)])]
  { res := vDict
      [(str "status", vStr (str "success")),
       (str "cli_path", vStr (d ++ str "/cli-tool/idp")),
       (str "readme_path", vStr (d ++ str "/cli-tool/README.md")),
       (str "commands", vStr commands)],
    fs := (((fs.write cliPath script).write readmePath readme).write jsonPath metadata),
    effs := [Effect.readF infraPath, Effect.writeF cliPath, Effect.chmodF cliPath,
             Effect.writeF readmePath, Effect.writeF jsonPath] }

/-- get_platform_config of devex/agent.py lines 227-241. -/
def devex_get_platform_config (env : Env) (fs : FS) : ToolOut :=
  let d := appOutputDir env
  let p : FPath := ⟨d, str "platform-config.yaml"⟩
  match fs.read p with
  | none =>
      { res := vDict [(str "error", vStr (str "Platform config no encontrado"))],
        fs := fs, effs := [Effect.readF p] }
  | some config =>
      { res := vDict
          [(str "status", vStr (str "success")),
           (str "config", config),
           (str "framework", (dGetPath config [str "stack", str "framework"]).getD vNull)],
        fs := fs, effs := [Effect.readF p] }

/-!  Web Portal agent, web_portal/agent.py.  -/

/-- Service extraction of read_idp_configuration lines 60-81: image,
container name and the host side of the first port mapping. -/
def extractService (name : Str) (sc : Val) : Val :=
  let image := asStrD (dGet sc (str "image")) (str "unknown")
  let container := asStrD (dGet sc (str "container_name")) name
  let port? :=
    match dGet sc (str "ports") with
    | some (vList (vStr p :: _)) =>
        let p2 := p.filter (fun c => c ≠ '"')
        some ((splitFirst ':' p2).map Prod.fst |>.getD p2)
    | _ => none
  vDict
    [(str "name", vStr name),
     (str "container_name", vStr container),
     (str "image", vStr image),
     (str "port", (port?.map vStr).getD vNull),
     (str "url", match port? with
                 | some p => vStr (str "http://localhost:" ++ p)
                 | none => vNull)]

/-- The decision files read_idp_configuration collects, lines 85-92. -/
def decisionFiles : List Str :=
  [str "platform-decisions.json", str "infrastructure-decisions.json",
   str "security-report.json", str "cicd-decisions.json",
   str "observability-decisions.json", str "devex-decisions.json"]

/-- Strip a .json suffix (decision_file.replace with empty string). -/
def dropJsonSuffix (s : Str) : Str := s.take (s.length - 5)

/-- read_idp_configuration of web_portal/agent.py lines 26-117. -/
def read_idp_configuration (env : Env) (fs : FS) : ToolOut :=
  let d := appOutputDir env
  let configPath : FPath := ⟨d, str "platform-config.yaml"⟩
  let composePath : FPath := ⟨d, str "docker-compose/app-stack.yml"⟩
  let baseEffs := [Effect.readF configPath]
  match fs.read configPath with
  | none =>
      { res := vDict [(str "error", vStr (str "Platform config no encontrado. Platform Architect debe ejecutarse primero.")),
                      (str "status", vStr (str "error"))],
        fs := fs, effs := baseEffs }
  | some config =>
      let services :=
        match fs.read composePath with
        | some compose =>
            match dGet compose (str "services") with
            | some (vDict svcs) => svcs.map (fun p => (p.1, extractService p.1 p.2))
            | _ => []
        | none => []
      let decisions := decisionFiles.foldl
        (fun acc f =>
          match fs.read ⟨d, f⟩ with
          | some v => acc ++ [(dropJsonSuffix f, v)]
          | none => acc) []
      let caps :=
        match dGet config (str "features") with
        | some feats =>
            match dGet feats (str "self_service") with
            | some ss =>
                if (dGetD ss (str "enabled") vNull).truthy then
                  dGetD ss (str "capabilities") (vList [])
                else vList []
            | none => vList []
        | none => vList []
      { res := vDict
          [(str "status", vStr (str "success")),
           (str "platform", dGetD config (str "platform") (vDict [])),
           (str "stack", dGetD config (str "stack") (vDict [])),
           (str "components", dGetD config (str "components") (vDict [])),
           (str "platform_config", config),
           (str "services", vDict services),
           (str "decisions", vDict decisions),
           (str "self_service_capabilities", caps),
           (str "total_services", vNat services.length),
           (str "output_dir", vStr d)],
        fs := fs,
        effs := baseEffs ++ [Effect.readF composePath] ++ decisionFiles.map (fun f => Effect.readF ⟨d, f⟩) }

/-- generate_portal of web_portal/agent.py lines 120-431: generated
main.py, index.html, requirements, Dockerfile and run script contents are
stored opaquely (they are rendered templates never read back by a tool). -/
def generate_portal (env : Env) (now : Str) (fs : FS) : ToolOut :=
  let d := appOutputDir env
  let idp := read_idp_configuration env fs
  if statusOf idp.res = some (str "error") then
    { res := vDict [(str "status", vStr (str "error")),
                    (str "message", dGetD idp.res (str "error") vNull)],
      fs := fs, effs := idp.effs }
  else
    let nServices :=
      match dGet idp.res (str "services") with
      | some (vDict svcs) => svcs.length
      | _ => 0
    let mainPath : FPath := ⟨d, str "portal/main.py"⟩
    let indexPath : FPath := ⟨d, str "portal/templates/index.html"⟩
    let reqPath : FPath := ⟨d, str "portal/requirements.txt"⟩
    let dockerPath : FPath := ⟨d, str "portal/Dockerfile"⟩
    let runPath : FPath := ⟨d, str "portal/run-portal.sh"⟩
    let jsonPath : FPath := ⟨d, str "web-portal-decisions.json"⟩
    let metadata := vDict
      [(str "web_portal", vDict
          [(str "framework", vStr (str "FastAPI + Jinja2")),
           (str "files_created", vList [vStr (str "main.py"), vStr (str "templates/index.html"),
                                        vStr (str "Dockerfile"), vStr (str "requirements.txt")]),
           (str "services_count", vNat nServices),
           (str "created_at", vStr now),
           (str "generated_by", vStr (str "Web Portal Agent (ADK)"))])]
    { res := vDict
        [(str "status", vStr (str "success")),
         (str "portal_dir", vStr (d ++ str "/portal")),
         (str "files_created", vList [vStr (str "main.py"), vStr (str "templates/index.html"),
                                      vStr (str "Dockerfile"), vStr (str "requirements.txt"),
                                      vStr (str "run-portal.sh")]),
         (str "services_count", vNat nServices)],
      fs := ((((((fs.write mainPath (vStr (str "portal-main-py"))).write indexPath
          (vStr (str "portal-index-html"))).write reqPath
          (vStr (str "portal-requirements"))).write dockerPath
          (vStr (str "portal-dockerfile"))).write jsonPath metadata).write runPath
          (vStr (str "portal-run-script"))),
      effs := idp.effs ++ [Effect.writeF mainPath, Effect.writeF indexPath, Effect.writeF reqPath,
                           Effect.writeF dockerPath, Effect.writeF jsonPath,
                           Effect.writeF runPath, Effect.chmodF runPath] }

/-!  Platform Architect ADK variant, platform_architect_adk.py (this is
the module the orchestrator imports as its first sub-agent).  -/

/-- The explicit arguments of save_platform_config in
platform_architect_adk.py lines 27-44. -/
structure AdkArgs where
  runtime : Str
  framework : Str
  database : Str
  monitoring_metrics : Str
  monitoring_visualization : Str
  security_scanner : Str
  cicd_tool : Str
  cache_strategy : Str
  deployment_target : Str
  deployment_environment : Str
  justification_runtime : Str
  justification_framework : Str
  justification_database : Str
  justification_monitoring : Str
  justification_security : Str
  justification_deployment : Str

/-- The configuration dictionary of platform_architect_adk.py lines
71-114 (same shape as the interactive variant, but from explicit
arguments and with no features section). -/
def buildConfigAdk (now : Str) (a : AdkArgs) : Val :=
  vDict
    [(str "platform", vDict
        [(str "name", vStr (str "IDP Auto-Provisioned by AI Agents (ADK Mode)")),
         (str "version", vStr (str "1.0.0")),
         (str "created_at", vStr now),
         (str "generated_by", vStr (str "Platform Architect Agent (ADK Interactive Mode)"))]),
     (str "stack", vDict
        [(str "runtime", vStr a.runtime),
         (str "framework", vStr a.framework),
         (str "database", vStr a.database),
         (str "cache", vStr a.cache_strategy)]),
     (str "infrastructure", vDict
        [(str "deployment_target", vStr a.deployment_target),
         (str "deployment_environment", vStr a.deployment_environment)]),
     (str "components", vDict
        [(str "monitoring", vDict
            [(str "metrics", vStr a.monitoring_metrics),
             (str "visualization", vStr a.monitoring_visualization)]),
         (str "security", vDict
            [(str "scanner", vStr a.security_scanner),
             (str "policies", vStr (str "CIS Benchmarks"))]),
         (str "ci_cd", vDict
            [(str "provider", vStr a.cicd_tool)])]),
     (str "decisions_justification", vDict
        [(str "runtime", vStr a.justification_runtime),
         (str "framework", vStr a.justification_framework),
         (str "database", vStr a.justification_database),
         (str "monitoring", vStr a.justification_monitoring),
         (str "security", vStr a.justification_security),
         (str "deployment", vStr a.justification_deployment)]),
     (str "metadata", vDict
        [(str "ai_model", vStr (str "gemini-2.5-flash")),
         (str "mode", vStr (str "ADK Interactive")),
         (str "decision_timestamp", vStr now)])]

/-- save_platform_config of platform_architect_adk.py lines 27-135: no
validation, writes the YAML and JSON copies and reports success. -/
def save_platform_config_adk (env : Env) (now : Str) (a : AdkArgs) (fs : FS) : ToolOut :=
  let d := archOutputDir env
  let config := buildConfigAdk now a
  let yamlPath : FPath := ⟨d, str "platform-config.yaml"⟩
  let jsonPath : FPath := ⟨d, str "platform-decisions.json"⟩
  { res := vDict
      [(str "status", vStr (str "success")),
       (str "yaml_path", vStr (d ++ str "/platform-config.yaml")),
       (str "json_path", vStr (d ++ str "/platform-decisions.json")),
       (str "runtime", vStr a.runtime),
       (str "framework", vStr a.framework),
       (str "database", vStr a.database)],
    fs := (fs.write yamlPath config).write jsonPath config,
    effs := [Effect.writeF yamlPath, Effect.writeF jsonPath] }

/-- The candidate preference files of get_user_preferences, lines
216-220 of platform_architect_adk.py (fixed paths outside the shared
state directory). -/
def preferencePaths : List FPath :=
  [⟨str "/app", str "user-preferences.yaml"⟩,
   ⟨str ".", str "user-preferences.yaml"⟩,
   ⟨str "..", str "user-preferences.yaml"⟩]

/-- First existing candidate. -/
def firstExisting (fs : FS) : List FPath → Option FPath
  | [] => none
  | p :: rest => if fs.pathExists p then some p else firstExisting fs rest

/-- get_user_preferences of platform_architect_adk.py lines 201-267. -/
def get_user_preferences (fs : FS) : ToolOut :=
  match firstExisting fs preferencePaths with
  | none =>
      { res := vDict
          [(str "status", vStr (str "not_found")),
           (str "message", vStr (str "No se encontró user-preferences.yaml. Usando valores por defecto del agente.")),
           (str "defaults", vDict
              [(str "cicd_tool", vStr (str "Jenkins")),
               (str "security_scanner", vStr (str "Trivy")),
               (str "deployment_target", vStr (str "Docker Compose")),
               (str "deployment_environment", vStr (str "Local"))])],
        fs := fs, effs := preferencePaths.map Effect.readF }
  | some p =>
      let data := (fs.read p).getD vNull
      let prefs := dGetD data (str "preferences") (vDict [])
      { res := vDict
          [(str "status", vStr (str "found")),
           (str "file_path", vStr (p.dir ++ str "/" ++ p.rel)),
           (str "preferences", vDict
              ([str "cicd_tool", str "security_scanner", str "deployment_target",
                str "deployment_environment", str "monitoring_metrics",
                str "monitoring_visualization", str "cache", str "database",
                str "runtime"].map (fun k => (k, (dGet prefs k).getD vNull))))],
        fs := fs, effs := preferencePaths.map Effect.readF ++ [Effect.readF p] }

/-!  Orchestrator, orchestrator_adk.py.  -/

/-- The seven sub-agents in the order the orchestrator passes them to
SequentialAgent, orchestrator_adk.py lines 162-170 (names as in the
agent_order list, line 286). -/
def subAgentOrder : List Str :=
  [str "platform_architect", str "infrastructure", str "security",
   str "cicd", str "observability", str "devex", str "web_portal"]

/-- A stage lifecycle event in a run. -/
inductive AgentEv where
  | start : Str → AgentEv
  | finish : Str → AgentEv
deriving DecidableEq

/-- Modelled from the spec: the SequentialAgent construct of the
third-party agent runtime, which this repository only configures (spec
sections 1 and 5: execution is strictly sequential, single invocation
per stage), runs its sub-agents one after another, each exactly once, in
list order. -/
def sequentialAgentTrace : List Str → List AgentEv
  | [] => []
  | a :: rest => AgentEv.start a :: AgentEv.finish a :: sequentialAgentTrace rest

/-- The event trace of one orchestrator run. -/
def orchestratorTrace : List AgentEv := sequentialAgentTrace subAgentOrder

/-- Number of stages running after one event. -/
def runStep (n : Nat) : AgentEv → Nat
  | AgentEv.start _ => n + 1
  | AgentEv.finish _ => n - 1

/-- Maximum number of simultaneously running stages over all prefixes of
a trace. -/
def maxRunning : Nat → Nat → List AgentEv → Nat
  | _, best, [] => best
  | cur, best, e :: rest =>
      let c := runStep cur e
      maxRunning c (max best c) rest

/-!  CI/CD agent (stage 4).  -/

/-- Modelled from the spec: the CI/CD agent (agents_adk/cicd/agent.py,
imported by the orchestrator but not included under src) generates CI/CD
scripts into the shared output directory, per the spec overview
("collectively synthesize ... CI/CD scripts"); the sibling agents refer
to cicd/build.sh, cicd/test.sh, cicd/deploy.sh and cicd-decisions.json
under that directory. -/
def cicd_generate_scripts (env : Env) (fs : FS) : ToolOut :=
  let d := appOutputDir env
  let buildPath : FPath := ⟨d, str "cicd/build.sh"⟩
  let testPath : FPath := ⟨d, str "cicd/test.sh"⟩
  let deployPath : FPath := ⟨d, str "cicd/deploy.sh"⟩
  let jsonPath : FPath := ⟨d, str "cicd-decisions.json"⟩
  { res := vDict [(str "status", vStr (str "success"))],
    fs := (((fs.write buildPath (vStr (str "cicd-build-script"))).write testPath
        (vStr (str "cicd-test-script"))).write deployPath
        (vStr (str "cicd-deploy-script"))).write jsonPath
        (vDict [(str "ci_cd", vStr (str "scripts generated"))]),
    effs := [Effect.writeF buildPath, Effect.writeF testPath,
             Effect.writeF deployPath, Effect.writeF jsonPath] }

/-- One full pipeline run in the orchestrator order (platform architect,
infrastructure, security, CI/CD, observability, devex, web portal), each
stage invoking its primary tool with the defaults the sub-agent
instructions mandate. -/
def pipelineRun (env : Env) (now : Str) (a : AdkArgs) (sub : SubprocResult) (fs : FS) : FS :=
  let s1 := save_platform_config_adk env now a fs
  let s2 := save_docker_compose env now (str "generate_default") none s1.fs
  let s3 := run_trivy_scan env now sub s2.fs
  let s4 := cicd_generate_scripts env s3.fs
  let s5 := setup_prometheus_grafana env now (str "generate_default") s4.fs
  let s6 := save_cli_tool env now (str "generate_default") s5.fs
  let s7 := generate_portal env now s6.fs
  s7.fs

/-!  Helper lemmas and derived definitions for the claims.  -/

theorem fpath_mk_eq (d r1 r2 : Str) : (FPath.mk d r1 = FPath.mk d r2) ↔ r1 = r2 := by
  constructor
  · exact fun h => congrArg FPath.rel h
  · exact fun h => by rw [h]

theorem read_over_write (fs : FS) (p q : FPath) (v : Val) :
    (fs.write q v).read p = if q = p then some v else fs.read p := rfl

/-- The configuration save_platform_config persists on success: built
from the parsed summary and the capabilities detected in the user-task
file. -/
def savedPlatformConfig (env : Env) (now : Str) (ss : Str) (fs : FS) : Val :=
  let d := archOutputDir env
  let user_task :=
    match fs.read ⟨d, str "user-task.txt"⟩ with
    | some (vStr t) => trim t
    | _ => []
  let caps := if user_task.isEmpty then [] else detectCapabilities user_task
  buildConfig now caps (parseParts ss)

/-- A complete stack summary in exactly the format the agent instruction
mandates. -/
def demoStackSummary : Str :=
  str "Runtime: Python 3.11 | Framework: FastAPI | Database: PostgreSQL | Cache: Redis | Monitoring: Prometheus+Grafana | Security: Trivy | CI/CD: Jenkins | Deployment: Docker Compose | Environment: Local"

/-- C4: saving a complete stack summary and then reading the current
configuration through the same environment yields status found with the
configuration that was saved. -/
theorem c4_save_then_get_roundtrip (env : Env) (now ss : Str) (fs : FS)
    (h : missingFields (parseParts ss) = []) :
    (get_current_config env (save_platform_config env now ss fs).fs).res =
      vDict [(str "status", vStr (str "found")),
             (str "config", savedPlatformConfig env now ss fs)] := by
  have h1 : ¬ (str "platform-decisions.json" = str "platform-config.yaml") := by decide
  have h2 : ¬ (str "platform-architect-debug.log" = str "platform-config.yaml") := by decide
  simp only [save_platform_config, get_current_config, savedPlatformConfig, h,
    List.isEmpty_nil, if_true, FS.write, FS.read, read_over_write, fpath_mk_eq,
    h1, h2, if_false, if_true]

theorem c4_save_then_get_roundtrip_witness :
    missingFields (parseParts demoStackSummary) = [] ∧
    (get_current_config (some (str "/out"))
        (save_platform_config (some (str "/out")) (str "t0") demoStackSummary []).fs).res =
      vDict [(str "status", vStr (str "found")),
             (str "config", savedPlatformConfig (some (str "/out")) (str "t0") demoStackSummary [])] :=
  ⟨by decide, c4_save_then_get_roundtrip (some (str "/out")) (str "t0") demoStackSummary [] (by decide)⟩

/-- C8: a stack summary missing (or giving an empty value for) any of the
eight required fields makes save_platform_config return an error naming
the missing fields and leaves both the YAML and the JSON config files
unwritten. -/
theorem c8_missing_fields_rejected (env : Env) (now ss : Str) (fs : FS)
    (h : missingFields (parseParts ss) ≠ []) :
    statusOf (save_platform_config env now ss fs).res = some (str "error") ∧
    dGet (save_platform_config env now ss fs).res (str "message") =
      some (vStr (str "Missing required fields: " ++
        joinSep (str ", ") (missingFields (parseParts ss)) ++
        str ". Please provide complete stack_summary.")) ∧
    (save_platform_config env now ss fs).fs.read ⟨archOutputDir env, str "platform-config.yaml"⟩ =
      fs.read ⟨archOutputDir env, str "platform-config.yaml"⟩ ∧
    (save_platform_config env now ss fs).fs.read ⟨archOutputDir env, str "platform-decisions.json"⟩ =
      fs.read ⟨archOutputDir env, str "platform-decisions.json"⟩ := by
  have h1 : ¬ (str "platform-architect-debug.log" = str "platform-config.yaml") := by decide
  have h2 : ¬ (str "platform-architect-debug.log" = str "platform-decisions.json") := by decide
  have h3 : ¬ (str "status" = str "message") := by decide
  have hne : (missingFields (parseParts ss)).isEmpty = false := by
    cases hm : missingFields (parseParts ss) with
    | nil => exact absurd hm h
    | cons a l => rfl
  refine ⟨?_, ?_, ?_, ?_⟩ <;>
    simp only [save_platform_config, missingFieldsError, statusOf, hne, Bool.false_eq_true,
      if_false, dGet, lookupD, if_true, FS.write, FS.read, read_over_write, fpath_mk_eq,
      h1, h2, h3, if_false]

theorem c8_missing_fields_rejected_witness :
    missingFields (parseParts (str "Runtime: Go | Database: | Cache: Redis")) ≠ [] ∧
    statusOf (save_platform_config none (str "t0") (str "Runtime: Go | Database: | Cache: Redis") []).res =
      some (str "error") :=
  ⟨by decide,
   (c8_missing_fields_rejected none (str "t0") (str "Runtime: Go | Database: | Cache: Redis") []
      (by decide)).1⟩

/-- C9: when all eight required fields are present but the summary has
neither a CI/CD nor a CICD entry, the save succeeds and the persisted
configuration records Jenkins as the CI/CD provider. -/
theorem c9_cicd_defaults_to_jenkins (env : Env) (now ss : Str) (fs : FS)
    (h1 : missingFields (parseParts ss) = [])
    (h2 : partsGet (parseParts ss) (str "ci/cd") = none)
    (h3 : partsGet (parseParts ss) (str "cicd") = none) :
    statusOf (save_platform_config env now ss fs).res = some (str "success") ∧
    ((save_platform_config env now ss fs).fs.read ⟨archOutputDir env, str "platform-config.yaml"⟩).bind
        (fun c => dGetPath c [str "components", str "ci_cd", str "provider"]) =
      some (vStr (str "Jenkins")) := by
  have hd : ¬ (str "platform-decisions.json" = str "platform-config.yaml") := by decide
  have hprov : ∀ caps parts,
      dGetPath (buildConfig now caps parts) [str "components", str "ci_cd", str "provider"] =
        some (vStr (cicdTool parts)) := by
    intro caps parts
    cases caps with
    | nil => rfl
    | cons a l => rfl
  constructor
  · simp only [save_platform_config, statusOf, h1, List.isEmpty_nil, if_true, dGet, lookupD,
      if_true]
  · simp only [save_platform_config, h1, List.isEmpty_nil, if_true, FS.write, FS.read,
      read_over_write, fpath_mk_eq, hd, if_false, if_true, Option.some_bind]
    rw [hprov]
    simp [cicdTool, h2, h3]

/-- A complete stack summary that omits the CI/CD entry. -/
def noCicdSummary : Str :=
  str "Runtime: Go 1.21 | Framework: Gin | Database: PostgreSQL | Cache: Redis | Monitoring: Prometheus+Grafana | Security: Trivy | Deployment: Docker Compose | Environment: Local"

theorem c9_cicd_defaults_to_jenkins_witness :
    missingFields (parseParts noCicdSummary) = [] ∧
    partsGet (parseParts noCicdSummary) (str "ci/cd") = none ∧
    partsGet (parseParts noCicdSummary) (str "cicd") = none ∧
    statusOf (save_platform_config none (str "t0") noCicdSummary []).res = some (str "success") :=
  ⟨by decide, by decide, by decide,
   (c9_cicd_defaults_to_jenkins none (str "t0") noCicdSummary []
      (by decide) (by decide) (by decide)).1⟩

/-- C3 counterexample: save_platform_config on an empty stack summary
returns an error dictionary whose status field is the string error, not
not_implemented, so not every error result carries the
not_implemented status. -/
theorem c3_error_status_counterexample :
    statusOf (save_platform_config (some (str "/out")) (str "t0") [] []).res = some (str "error") ∧
    str "error" ≠ str "not_implemented" := by
  constructor
  · decide
  · decide

/-- C3 amended: the stub tool functions return ad hoc dictionaries with
status not_implemented, while other error results use status error,
status not_found, or a bare error-keyed dictionary with no status
field. -/
theorem c3_error_shapes (s : Str) :
    statusOf (save_kubernetes_manifests s) = some (str "not_implemented") ∧
    statusOf (save_terraform_config s) = some (str "not_implemented") ∧
    statusOf (save_helm_charts s) = some (str "not_implemented") ∧
    statusOf (save_cloudformation_template s) = some (str "not_implemented") ∧
    statusOf run_grype_scan = some (str "not_implemented") ∧
    statusOf (setup_datadog s) = some (str "not_implemented") ∧
    statusOf (setup_cloudwatch s) = some (str "not_implemented") ∧
    statusOf (setup_new_relic s) = some (str "not_implemented") ∧
    statusOf (save_platform_config none (str "t0") [] []).res = some (str "error") ∧
    statusOf (get_current_config none []).res = some (str "not_found") ∧
    (dGet (infra_get_platform_config none []).res (str "error")).isSome = true ∧
    statusOf (infra_get_platform_config none []).res = none := by
  refine ⟨rfl, rfl, rfl, rfl, rfl, rfl, rfl, rfl, by decide, by decide, by decide, by decide⟩

/-- C1 counterexample: with ADK_OUTPUT_DIR unset, the Platform Architect
successfully saves platform-config.yaml (under its default directory
./test-outputs), yet the Infrastructure agent reader (default directory
/app/outputs) does not find it and returns its error dictionary. -/
theorem c1_unset_env_counterexample :
    archOutputDir none ≠ appOutputDir none ∧
    statusOf (save_platform_config none (str "t0") demoStackSummary []).res = some (str "success") ∧
    (dGet (infra_get_platform_config none
        (save_platform_config none (str "t0") demoStackSummary []).fs).res (str "error")).isSome = true := by
  refine ⟨by decide, by decide, by decide⟩

/-- C1 amended: for every set value of ADK_OUTPUT_DIR all agents compute
the same output directory, and a platform config written by
save_platform_config is found by the Infrastructure agent reader at the
same path; only when the variable is unset do the defaults diverge. -/
theorem c1_shared_directory_when_set (d now ss : Str) (fs : FS)
    (h : missingFields (parseParts ss) = []) :
    archOutputDir (some d) = appOutputDir (some d) ∧
    statusOf (infra_get_platform_config (some d)
        (save_platform_config (some d) now ss fs).fs).res = some (str "success") ∧
    dGet (infra_get_platform_config (some d)
        (save_platform_config (some d) now ss fs).fs).res (str "config") =
      some (savedPlatformConfig (some d) now ss fs) := by
  have h1 : ¬ (str "platform-decisions.json" = str "platform-config.yaml") := by decide
  have h2 : ¬ (str "platform-architect-debug.log" = str "platform-config.yaml") := by decide
  refine ⟨rfl, ?_, ?_⟩ <;>
    simp only [save_platform_config, infra_get_platform_config, savedPlatformConfig,
      statusOf, h, List.isEmpty_nil, if_true, FS.write, FS.read, read_over_write,
      fpath_mk_eq, h1, h2, if_false, if_true, archOutputDir, appOutputDir,
      Option.getD_some, dGet, lookupD] <;>
    simp [str]

theorem c1_shared_directory_when_set_witness :
    missingFields (parseParts demoStackSummary) = [] ∧
    statusOf (infra_get_platform_config (some (str "/shared"))
        (save_platform_config (some (str "/shared")) (str "t0") demoStackSummary []).fs).res =
      some (str "success") :=
  ⟨by decide,
   (c1_shared_directory_when_set (str "/shared") (str "t0") demoStackSummary [] (by decide)).2.1⟩

/-- C5: one orchestrator run starts and finishes the seven sub-agents in
the fixed order Platform Architect, Infrastructure, Security, CI/CD,
Observability, DevEx, Web Portal; every stage is started exactly once,
and at no point is more than one stage running. -/
theorem c5_sequential_once_in_order :
    orchestratorTrace =
      [AgentEv.start (str "platform_architect"), AgentEv.finish (str "platform_architect"),
       AgentEv.start (str "infrastructure"), AgentEv.finish (str "infrastructure"),
       AgentEv.start (str "security"), AgentEv.finish (str "security"),
       AgentEv.start (str "cicd"), AgentEv.finish (str "cicd"),
       AgentEv.start (str "observability"), AgentEv.finish (str "observability"),
       AgentEv.start (str "devex"), AgentEv.finish (str "devex"),
       AgentEv.start (str "web_portal"), AgentEv.finish (str "web_portal")] ∧
    (∀ a ∈ subAgentOrder, orchestratorTrace.count (AgentEv.start a) = 1) ∧
    maxRunning 0 0 orchestratorTrace ≤ 1 := by
  refine ⟨by decide, by decide, by decide⟩

/-- Whether a compose document currently contains a service of the given
name. -/
def hasService (compose : Val) (name : Str) : Bool :=
  match servicesOf compose with
  | some svcs => (lookupD svcs name).isSome
  | none => false

/-- Lookup after a Python dict assignment. -/
theorem lookupD_dictSet (l : List (Str × Val)) (k : Str) (v : Val) (q : Str) :
    lookupD (dictSet l k v) q = if k = q then some v else lookupD l q := by
  induction l with
  | nil => simp [dictSet, lookupD]
  | cons h t ih =>
      obtain ⟨k1, v1⟩ := h
      by_cases h1 : k1 = k
      · subst h1
        simp only [dictSet, if_true, lookupD]
        by_cases h2 : k1 = q
        · subst h2; simp
        · simp [h2, lookupD]
      · simp only [dictSet, h1, if_false, lookupD]
        by_cases h2 : k1 = q
        · subst h2
          have : ¬ (k = k1) := fun he => h1 he.symm
          simp [this, lookupD]
        · simp [h2, ih]

/-- The service block a compose document currently holds under a name. -/
def serviceLookup (q : Str) (c : Val) : Option Val :=
  match servicesOf c with
  | some svcs => lookupD svcs q
  | none => none

theorem hasService_eq (c : Val) (q : Str) : hasService c q = (serviceLookup q c).isSome := by
  cases h : servicesOf c <;> simp [hasService, serviceLookup, h]

theorem serviceLookup_vDict (L : List (Str × Val)) (q : Str) :
    serviceLookup q (vDict L) =
      (match lookupD L (str "services") with
       | some (vDict s) => lookupD s q
       | _ => none) := by
  unfold serviceLookup servicesOf
  rw [show dGet (vDict L) (str "services") = lookupD L (str "services") from rfl]
  cases lookupD L (str "services") with
  | none => rfl
  | some v => cases v <;> rfl

theorem servicesOf_vDict (L : List (Str × Val)) :
    servicesOf (vDict L) =
      (match lookupD L (str "services") with
       | some (vDict s) => some s
       | _ => none) := by
  unfold servicesOf
  rw [show dGet (vDict L) (str "services") = lookupD L (str "services") from rfl]

theorem serviceLookup_volumes_set (L : List (Str × Val)) (X : Val) (q : Str) :
    serviceLookup q (vDict (dictSet L (str "volumes") X)) = serviceLookup q (vDict L) := by
  rw [serviceLookup_vDict, serviceLookup_vDict, lookupD_dictSet,
    if_neg (by decide : ¬ (str "volumes" = str "services"))]

theorem serviceLookup_services_set (l0 s : List (Str × Val)) (q : Str) :
    serviceLookup q (vDict (dictSet l0 (str "services") (vDict s))) = lookupD s q := by
  rw [serviceLookup_vDict, lookupD_dictSet, if_pos rfl]

theorem servicesOf_of_truthy_false (c : Val) (h : c.truthy = false) : servicesOf c = none := by
  cases c with
  | vDict l =>
      cases l with
      | nil => rfl
      | cons a t => simp [Val.truthy] at h
  | vNull => rfl
  | vBool b => rfl
  | vNat n => rfl
  | vStr s => rfl
  | vList l => rfl

theorem servicesOf_of_memb_false (c : Val) (h : memb (str "services") c = some false) :
    servicesOf c = none := by
  cases c with
  | vDict l =>
      simp only [memb, Option.some.injEq] at h
      rw [servicesOf_vDict]
      cases hl : lookupD l (str "services") with
      | none => rfl
      | some v => rw [hl] at h; simp at h
  | vNull => simp [memb] at h
  | vBool b => simp [memb] at h
  | vNat n => simp [memb] at h
  | vStr s => rfl
  | vList l => rfl

theorem serviceLookup_of_servicesOf_none (c : Val) (q : Str) (h : servicesOf c = none) :
    serviceLookup q c = none := by
  unfold serviceLookup
  rw [h]

theorem addServiceE_eq_some (compose : Val) (s : Str) (blk net : Val) (doc : Val)
    (h : addServiceE compose s blk net = some doc) :
    ∃ l sv, compose = vDict l ∧ lookupD l (str "services") = some (vDict sv) ∧
      doc = vDict (dictSet l (str "services") (vDict (dictSet sv s (withNetIf blk net)))) := by
  cases compose with
  | vDict l =>
      cases hsv : lookupD l (str "services") with
      | none => simp [addServiceE, subscriptV, hsv] at h
      | some sv =>
          cases sv with
          | vDict svl =>
              refine ⟨l, svl, rfl, hsv, ?_⟩
              simp only [addServiceE, subscriptV, hsv, Option.some_bind, assignV,
                Option.some.injEq] at h
              exact h.symm
          | vNull => simp [addServiceE, subscriptV, assignV, hsv] at h
          | vBool b => simp [addServiceE, subscriptV, assignV, hsv] at h
          | vNat n => simp [addServiceE, subscriptV, assignV, hsv] at h
          | vStr s2 => simp [addServiceE, subscriptV, assignV, hsv] at h
          | vList xs => simp [addServiceE, subscriptV, assignV, hsv] at h
  | vNull => simp [addServiceE, subscriptV] at h
  | vBool b => simp [addServiceE, subscriptV] at h
  | vNat n => simp [addServiceE, subscriptV] at h
  | vStr s2 => simp [addServiceE, subscriptV] at h
  | vList xs => simp [addServiceE, subscriptV] at h

theorem serviceLookup_addServiceE (compose : Val) (s : Str) (blk net : Val) (doc : Val) (q : Str)
    (h : addServiceE compose s blk net = some doc) :
    serviceLookup q doc = if s = q then some (withNetIf blk net) else serviceLookup q compose := by
  obtain ⟨l, sv, hc, hsv, hd⟩ := addServiceE_eq_some compose s blk net doc h
  subst hc
  subst hd
  rw [serviceLookup_services_set, lookupD_dictSet]
  by_cases hsq : s = q
  · simp [hsq]
  · simp only [hsq, if_false]
    rw [serviceLookup_vDict, hsv]

theorem assignV_volumes_serviceLookup (c x doc : Val) (q : Str)
    (h : assignV c (str "volumes") x = some doc) :
    serviceLookup q doc = serviceLookup q c := by
  cases c with
  | vDict l =>
      simp only [assignV, Option.some.injEq] at h
      subst h
      rw [serviceLookup_volumes_set]
  | vNull => simp [assignV] at h
  | vBool b => simp [assignV] at h
  | vNat n => simp [assignV] at h
  | vStr s => simp [assignV] at h
  | vList xs => simp [assignV] at h

theorem serviceLookup_cicdInsertE (compose : Val) (prov img : Str) (net : Val) (doc : Val)
    (q : Str) (h : cicdInsertE compose prov img net = some doc)
    (hq : ¬ (str "ci-runner" = q)) :
    serviceLookup q doc = serviceLookup q compose := by
  unfold cicdInsertE at h
  cases ha : addServiceE compose (str "ci-runner") (cicdServiceVal prov img) net with
  | none => rw [ha] at h; simp at h
  | some c2 =>
      rw [ha] at h
      simp only [Option.some_bind] at h
      have hpre : serviceLookup q c2 = serviceLookup q compose := by
        rw [serviceLookup_addServiceE compose _ _ _ c2 q ha, if_neg hq]
      by_cases hp : prov = str "Jenkins"
      · rw [if_pos hp] at h
        cases hm : memb (str "volumes") c2 with
        | none => rw [hm] at h; simp at h
        | some b =>
            rw [hm] at h
            simp only [Option.some_bind] at h
            cases b with
            | true =>
                simp only [if_true, Option.some_bind] at h
                cases hs2 : subscriptV c2 (str "volumes") with
                | none => rw [hs2] at h; simp at h
                | some vol =>
                    rw [hs2] at h
                    simp only [Option.some_bind] at h
                    cases hv2 : assignV vol (str "jenkins_data") vNull with
                    | none => rw [hv2] at h; simp at h
                    | some vol2 =>
                        rw [hv2] at h
                        simp only [Option.some_bind] at h
                        rw [assignV_volumes_serviceLookup c2 vol2 doc q h, hpre]
            | false =>
                simp only [Bool.false_eq_true, if_false] at h
                cases ha2 : assignV c2 (str "volumes") (vDict []) with
                | none => rw [ha2] at h; simp at h
                | some c3 =>
                    rw [ha2] at h
                    simp only [Option.some_bind] at h
                    have hpre3 : serviceLookup q c3 = serviceLookup q c2 :=
                      assignV_volumes_serviceLookup c2 _ c3 q ha2
                    cases hs2 : subscriptV c3 (str "volumes") with
                    | none => rw [hs2] at h; simp at h
                    | some vol =>
                        rw [hs2] at h
                        simp only [Option.some_bind] at h
                        cases hv2 : assignV vol (str "jenkins_data") vNull with
                        | none => rw [hv2] at h; simp at h
                        | some vol2 =>
                            rw [hv2] at h
                            simp only [Option.some_bind] at h
                            rw [assignV_volumes_serviceLookup c3 vol2 doc q h, hpre3, hpre]
      · rw [if_neg hp] at h
        injection h with h2
        rw [← h2, hpre]

theorem serviceLookup_case2CicdPart (c : Val) (prov : Str) (ci : Option Str) (net : Val)
    (doc : Val) (q : Str) (h : (case2CicdPart c prov ci net).1 = some doc)
    (hq : ¬ (str "ci-runner" = q)) :
    serviceLookup q doc = serviceLookup q c := by
  cases ci with
  | none =>
      simp only [case2CicdPart, Option.some.injEq] at h
      rw [← h]
  | some img =>
      cases htr : c.truthy with
      | false =>
          simp only [case2CicdPart, htr, Bool.false_eq_true, if_false, Option.some.injEq] at h
          rw [← h]
      | true =>
          cases hm : memb (str "services") c with
          | none =>
              simp only [case2CicdPart, htr, if_true, hm] at h
              exact Option.noConfusion h
          | some b =>
              cases b with
              | false =>
                  simp only [case2CicdPart, htr, if_true, hm, Option.some.injEq] at h
                  rw [← h]
              | true =>
                  simp only [case2CicdPart, htr, if_true, hm] at h
                  exact serviceLookup_cicdInsertE c prov img net doc q h hq

theorem serviceLookup_case2PortalPart (c : Val) (b : Bool) (net : Val) (doc : Val) (q : Str)
    (h : case2PortalPart c b net = some doc) (hq : ¬ (str "web-portal" = q)) :
    serviceLookup q doc = serviceLookup q c := by
  cases b with
  | false =>
      simp only [case2PortalPart, Option.some.injEq] at h
      rw [← h]
  | true =>
      cases htr : c.truthy with
      | false =>
          simp only [case2PortalPart, htr, Bool.false_eq_true, if_false, Option.some.injEq] at h
          rw [← h]
      | true =>
          cases hm : memb (str "services") c with
          | none =>
              simp only [case2PortalPart, htr, if_true, hm] at h
              exact Option.noConfusion h
          | some bb =>
              cases bb with
              | false =>
                  simp only [case2PortalPart, htr, if_true, hm, Option.some.injEq] at h
                  rw [← h]
              | true =>
                  simp only [case2PortalPart, htr, if_true, hm] at h
                  rw [serviceLookup_addServiceE c _ _ _ doc q h, if_neg hq]

theorem scannerPart_some_isSome (compose : Val) (n img : Str) (net : Val) (c1 : Val)
    (h : (case2ScannerPart compose n (some img) net).1 = some c1) :
    (serviceLookup (str "security-scanner") c1).isSome = (servicesOf compose).isSome := by
  cases htr : compose.truthy with
  | false =>
      simp only [case2ScannerPart, htr, Bool.false_eq_true, if_false, Option.some.injEq] at h
      rw [← h, serviceLookup_of_servicesOf_none _ _ (servicesOf_of_truthy_false compose htr),
        servicesOf_of_truthy_false compose htr]
      rfl
  | true =>
      cases hm : memb (str "services") compose with
      | none =>
          simp only [case2ScannerPart, htr, if_true, hm] at h
          exact Option.noConfusion h
      | some b =>
          cases b with
          | false =>
              simp only [case2ScannerPart, htr, if_true, hm, Option.some.injEq] at h
              rw [← h, serviceLookup_of_servicesOf_none _ _ (servicesOf_of_memb_false compose hm),
                servicesOf_of_memb_false compose hm]
              rfl
          | true =>
              simp only [case2ScannerPart, htr, if_true, hm] at h
              obtain ⟨l, sv, hc, hsv, hd⟩ := addServiceE_eq_some _ _ _ _ _ h
              rw [serviceLookup_addServiceE _ _ _ _ _ _ h, if_pos rfl]
              subst hc
              rw [servicesOf_vDict, hsv]
              rfl

/-- The shared-state content for the C2 counterexample: a platform config
choosing Trivy as scanner and bash scripts (no runner image) as CI/CD
provider. -/
def c2ConfigFs : FS :=
  [(⟨str "/out", str "platform-config.yaml"⟩,
    vDict
      [(str "stack", vDict
          [(str "runtime", vStr (str "Python 3.11")),
           (str "framework", vStr (str "FastAPI")),
           (str "database", vStr (str "PostgreSQL")),
           (str "cache", vStr (str "Redis"))]),
       (str "components", vDict
          [(str "security", vDict [(str "scanner", vStr (str "Trivy"))]),
           (str "ci_cd", vDict [(str "provider", vStr (str "bash scripts"))])])])]

/-- Caller-provided compose content of fifty-plus characters whose
safe_load result is a mapping holding only a version key. -/
def c2Content : Str :=
  str "version: 3.8 # a compose document that intentionally has no services section"

/-- C2 counterexample: the Platform Architect chose Trivy, whose resolved
image is non-null, and save_docker_compose keeps a caller-provided
document of fifty-plus characters; yet no security-scanner service block
is inserted, because the parsed document has no services mapping.  The
insertion is therefore not governed by the image alone. -/
theorem c2_insertion_counterexample :
    (resolveScanner (str "Trivy")).2 = some (str "aquasec/trivy:latest") ∧
    50 ≤ c2Content.length ∧
    ((save_docker_compose (some (str "/out")) (str "t0") c2Content
        (some (vDict [(str "version", vStr (str "3.8"))])) c2ConfigFs).fs.read
      ⟨str "/out", str "docker-compose/app-stack.yml"⟩).map
        (fun c => hasService c (str "security-scanner")) = some false := by
  refine ⟨by decide, by decide, by decide⟩

/-- The shared-state content for grounding the CASE 2 exception path: a
platform config choosing Trivy as scanner and Jenkins as CI/CD
provider. -/
def c2JenkinsFs : FS :=
  [(⟨str "/out", str "platform-config.yaml"⟩,
    vDict
      [(str "stack", vDict
          [(str "runtime", vStr (str "Python 3.11")),
           (str "framework", vStr (str "FastAPI")),
           (str "database", vStr (str "PostgreSQL")),
           (str "cache", vStr (str "Redis"))]),
       (str "components", vDict
          [(str "security", vDict [(str "scanner", vStr (str "Trivy"))]),
           (str "ci_cd", vDict [(str "provider", vStr (str "Jenkins"))])])])]

/-- Caller-provided compose content of fifty-plus characters with a
services mapping but a null top-level volumes value. -/
def c2RaiseContent : Str :=
  str "services:\n  app:\n    image: python:3.11-slim\nvolumes:\n"

/-- The safe_load result of c2RaiseContent. -/
def c2RaiseDoc : Val :=
  vDict [(str "services", vDict [(str "app", vDict [(str "image", vStr (str "python:3.11-slim"))])]),
         (str "volumes", vNull)]

/-- C2 amended: save_docker_compose maps the chosen scanner name to its
fixed image (Trivy, Snyk, Grype, Clair; none for AWS Inspector), an
explicitly given non-empty image takes precedence, and the generated
default template contains a security-scanner service exactly when the
resolved image is non-null.  The whole caller-content insertion pass is
wrapped in a try/except keeping the original text: when no statement
raises, the block is present exactly when the image is non-null and the
parsed document has a services mapping; a null image never adds a block;
and when a statement raises (for example the Jenkins jenkins_data volume
update on a null volumes value) every insertion is discarded and the
caller text is written verbatim with no block. -/
theorem c2_scanner_mapping_and_insertion :
    (resolveScanner (str "Trivy") = (str "Trivy", some (str "aquasec/trivy:latest")) ∧
     resolveScanner (str "Snyk") = (str "Snyk", some (str "snyk/snyk:latest")) ∧
     resolveScanner (str "Grype") = (str "Grype", some (str "anchore/grype:latest")) ∧
     resolveScanner (str "Clair") = (str "Clair", some (str "quay.io/coreos/clair:latest")) ∧
     resolveScanner (str "AWS Inspector") = (str "AWS Inspector", none)) ∧
    (∀ s name img, parse_provider_string s = (name, some img) → img ≠ [] →
      (resolveScanner s).2 = some img) ∧
    (∀ dbI cacheI appI name si prov ci portal,
      hasService (case1Compose dbI cacheI appI name si prov ci portal) (str "security-scanner") =
        si.isSome) ∧
    (∀ compose name img prov ci portal doc,
      (case2Run compose name (some img) prov ci portal).result = some doc →
      hasService doc (str "security-scanner") = (servicesOf compose).isSome) ∧
    (∀ compose name prov ci portal doc,
      (case2Run compose name none prov ci portal).result = some doc →
      serviceLookup (str "security-scanner") doc =
        serviceLookup (str "security-scanner") compose) ∧
    ((case2Run c2RaiseDoc (str "Trivy") (some (str "aquasec/trivy:latest")) (str "Jenkins")
        (some (str "jenkins/jenkins:lts")) false).result.isSome = false ∧
     50 ≤ c2RaiseContent.length ∧
     ((save_docker_compose (some (str "/out")) (str "t0") c2RaiseContent (some c2RaiseDoc)
          c2JenkinsFs).fs.read ⟨str "/out", str "docker-compose/app-stack.yml"⟩).map
        (fun c => hasService c (str "security-scanner")) = some false) := by
  refine ⟨by decide, ?_, ?_, ?_, ?_, by decide, by decide, by decide⟩
  · intro s name img hp himg
    unfold resolveScanner
    rw [hp]
    cases img with
    | nil => exact absurd rfl himg
    | cons c t => rfl
  · intro dbI cacheI appI name si prov ci portal
    cases si <;> cases ci <;> cases portal <;> rfl
  · intro compose name img prov ci portal doc h
    rw [hasService_eq]
    unfold case2Run at h
    split at h
    · exact Option.noConfusion h
    next net hfn =>
      split at h
      next sn hsp => exact Option.noConfusion h
      next c1 sn hsp =>
        split at h
        next cn hcp => exact Option.noConfusion h
        next c2 cn hcp =>
          split at h
          next hpp => exact Option.noConfusion h
          next c3 hpp =>
            injection h with h2
            subst h2
            rw [serviceLookup_case2PortalPart c2 portal net c3 _ hpp (by decide),
              serviceLookup_case2CicdPart c1 prov ci net c2 _
                (by rw [hcp]) (by decide)]
            exact scannerPart_some_isSome compose name img net c1 (by rw [hsp])
  · intro compose name prov ci portal doc h
    unfold case2Run at h
    simp only [case2ScannerPart] at h
    split at h
    · exact Option.noConfusion h
    next net hfn =>
      split at h
      next cn hcp => exact Option.noConfusion h
      next c2 cn hcp =>
        split at h
        next hpp => exact Option.noConfusion h
        next c3 hpp =>
          injection h with h2
          subst h2
          rw [serviceLookup_case2PortalPart c2 portal net c3 _ hpp (by decide),
            serviceLookup_case2CicdPart compose prov ci net c2 _
              (by rw [hcp]) (by decide)]

theorem c2_scanner_mapping_and_insertion_witness :
    (resolveScanner (str "Clair (Image: custom/clair:2)")).2 = some (str "custom/clair:2") :=
  c2_scanner_mapping_and_insertion.2.1 (str "Clair (Image: custom/clair:2)")
    (str "Clair") (str "custom/clair:2") (by decide) (by decide)

/-- The compose document save_docker_compose leaves in the state
directory. -/
def writtenCompose (env : Env) (now content : Str) (parsed : Option Val) (fs : FS) : Option Val :=
  (save_docker_compose env now content parsed fs).fs.read
    ⟨appOutputDir env, str "docker-compose/app-stack.yml"⟩

/-- The scanner field save_docker_compose reads from the platform
config. -/
def scannerFieldOf (env : Env) (fs : FS) : Str :=
  asStrD ((fs.read ⟨appOutputDir env, str "platform-config.yaml"⟩).bind
    (fun c => dGetPath c [str "components", str "security", str "scanner"])) (str "Unknown")

/-- The CI/CD provider field save_docker_compose reads from the platform
config. -/
def cicdFieldOf (env : Env) (fs : FS) : Str :=
  asStrD ((fs.read ⟨appOutputDir env, str "platform-config.yaml"⟩).bind
    (fun c => dGetPath c [str "components", str "ci_cd", str "provider"])) (str "Unknown")

/-- Whether the portal has already been generated. -/
def portalExistsIn (env : Env) (fs : FS) : Bool :=
  fs.pathExists ⟨appOutputDir env, str "portal/main.py"⟩

theorem read_write_if (b : Bool) (fs : FS) (p q : FPath) (v : Val) (h : ¬ q = p) :
    FS.read (if b = true then fs.write q v else fs) p = fs.read p := by
  cases b <;> simp [read_over_write, h]

/-- C10: save_docker_compose always reports success; every yaml_content
shorter than fifty characters (not only the literal generate_default) is
discarded in favour of the generated default document, and
caller-provided content is kept as the base document exactly when it is
at least fifty characters long (verbatim when it does not parse or when
any insertion statement raises, otherwise with the availability-gated
service insertions applied). -/
theorem c10_fifty_char_threshold (env : Env) (now content : Str) (parsed : Option Val) (fs : FS) :
    statusOf (save_docker_compose env now content parsed fs).res = some (str "success") ∧
    (content.length < 50 →
      writtenCompose env now content parsed fs =
        writtenCompose env now (str "generate_default") none fs) ∧
    (50 ≤ content.length → parsed = none →
      writtenCompose env now content parsed fs = some (vStr content)) ∧
    (50 ≤ content.length → ∀ v, parsed = some v →
      writtenCompose env now content parsed fs =
        some ((case2Run v
          (resolveScanner (scannerFieldOf env fs)).1 (resolveScanner (scannerFieldOf env fs)).2
          (resolveCicd (cicdFieldOf env fs)).1 (resolveCicd (cicdFieldOf env fs)).2
          (portalExistsIn env fs)).result.getD (vStr content))) := by
  have hj : ¬ (str "infrastructure-decisions.json" = str "docker-compose/app-stack.yml") := by decide
  have hsj : ¬ (str "setup-jenkins.sh" = str "docker-compose/app-stack.yml") := by decide
  refine ⟨rfl, ?_, ?_, ?_⟩
  · intro hlt
    simp only [writtenCompose, save_docker_compose, scannerFieldOf, cicdFieldOf, portalExistsIn,
      hlt, decide_True, Bool.or_true, if_true, FS.read, FS.write, read_over_write, read_write_if,
      fpath_mk_eq, hj, hsj, if_false, if_true]
    simp [read_write_if, fpath_mk_eq, hj, hsj, str]
  · intro h50 hp
    have hlt : ¬ content.length < 50 := Nat.not_lt.mpr h50
    have hgd : ¬ (content = str "generate_default") := by
      intro he
      rw [he] at h50
      exact absurd h50 (by decide)
    subst hp
    simp only [writtenCompose, save_docker_compose, hlt, hgd, decide_False, Bool.or_false,
      Bool.or_self, if_false]
    split <;> simp [read_over_write, fpath_mk_eq, hj, hsj, str]
  · intro h50 v hp
    have hlt : ¬ content.length < 50 := Nat.not_lt.mpr h50
    have hgd : ¬ (content = str "generate_default") := by
      intro he
      rw [he] at h50
      exact absurd h50 (by decide)
    subst hp
    simp only [writtenCompose, save_docker_compose, scannerFieldOf, cicdFieldOf, portalExistsIn,
      hlt, hgd, decide_False, Bool.or_false, Bool.or_self, if_false]
    split <;> simp [read_over_write, fpath_mk_eq, hj, hsj, str, FS.pathExists]

theorem c10_fifty_char_threshold_witness :
    (str "app: image-only").length < 50 ∧
    writtenCompose (some (str "/o")) (str "t0") (str "app: image-only") none [] =
      writtenCompose (some (str "/o")) (str "t0") (str "generate_default") none [] :=
  ⟨by decide,
   (c10_fifty_char_threshold (some (str "/o")) (str "t0") (str "app: image-only") none []).2.1
     (by decide)⟩

/-- Whether an effect is an external process execution. -/
def isExecEffect : Effect → Bool
  | Effect.execP _ => true
  | _ => false

/-- Whether an effect stays inside the given state directory: a file
read, file write or chmod under it; process executions never do. -/
def Effect.isLocalTo (d : Str) : Effect → Bool
  | Effect.readF p => decide (p.dir = d)
  | Effect.writeF p => decide (p.dir = d)
  | Effect.chmodF p => decide (p.dir = d)
  | Effect.execP _ => false

/-- All effects of a trace stay inside the given state directory. -/
def effsLocal (d : Str) (l : List Effect) : Bool := l.all (Effect.isLocalTo d)

theorem effsLocal_append (d : Str) (a b : List Effect) :
    effsLocal d (a ++ b) = (effsLocal d a && effsLocal d b) := List.all_append

theorem effsLocal_save_platform_config (env : Env) (now ss : Str) (fs : FS) :
    effsLocal (archOutputDir env) (save_platform_config env now ss fs).effs = true := by
  simp only [save_platform_config]
  split <;> simp [effsLocal, Effect.isLocalTo]

theorem effsLocal_get_current_config (env : Env) (fs : FS) :
    effsLocal (archOutputDir env) (get_current_config env fs).effs = true := by
  simp only [get_current_config]
  split <;> simp [effsLocal, Effect.isLocalTo]

theorem effsLocal_explain_decision (env : Env) (dt : Str) (fs : FS) :
    effsLocal (archOutputDir env) (explain_decision env dt fs).effs = true := by
  simp only [explain_decision]
  split <;> (try split) <;> simp [effsLocal, Effect.isLocalTo]

theorem effsLocal_save_platform_config_adk (env : Env) (now : Str) (a : AdkArgs) (fs : FS) :
    effsLocal (archOutputDir env) (save_platform_config_adk env now a fs).effs = true := by
  simp [save_platform_config_adk, effsLocal, Effect.isLocalTo]

theorem effsLocal_infra_get_platform_config (env : Env) (fs : FS) :
    effsLocal (appOutputDir env) (infra_get_platform_config env fs).effs = true := by
  simp only [infra_get_platform_config]
  split <;> simp [effsLocal, Effect.isLocalTo]

theorem effsLocal_save_docker_compose (env : Env) (now content : Str) (parsed : Option Val)
    (fs : FS) :
    effsLocal (appOutputDir env) (save_docker_compose env now content parsed fs).effs = true := by
  simp only [save_docker_compose, effsLocal_append]
  split <;> split <;> simp [effsLocal, Effect.isLocalTo]

theorem effsLocal_sec_get_platform_config (env : Env) (fs : FS) :
    effsLocal (appOutputDir env) (sec_get_platform_config env fs).effs = true := by
  simp only [sec_get_platform_config]
  split <;> simp [effsLocal, Effect.isLocalTo]

theorem effsLocal_get_infrastructure_decisions (env : Env) (fs : FS) :
    effsLocal (appOutputDir env) (get_infrastructure_decisions env fs).effs = true := by
  simp only [get_infrastructure_decisions]
  split <;> simp [effsLocal, Effect.isLocalTo]

theorem effsLocal_save_security_report (env : Env) (now : Str) (v : Nat) (r rec : Str) (fs : FS) :
    effsLocal (appOutputDir env) (save_security_report env now v r rec fs).effs = true := by
  simp [save_security_report, effsLocal, Effect.isLocalTo]

theorem effsLocal_obs_get_platform_config (env : Env) (fs : FS) :
    effsLocal (appOutputDir env) (obs_get_platform_config env fs).effs = true := by
  simp only [obs_get_platform_config]
  split <;> simp [effsLocal, Effect.isLocalTo]

theorem effsLocal_setup_prometheus_grafana (env : Env) (now dash : Str) (fs : FS) :
    effsLocal (appOutputDir env) (setup_prometheus_grafana env now dash fs).effs = true := by
  simp [setup_prometheus_grafana, effsLocal, Effect.isLocalTo]

theorem effsLocal_save_cli_tool (env : Env) (now cs : Str) (fs : FS) :
    effsLocal (appOutputDir env) (save_cli_tool env now cs fs).effs = true := by
  simp [save_cli_tool, effsLocal, Effect.isLocalTo]

theorem effsLocal_devex_get_platform_config (env : Env) (fs : FS) :
    effsLocal (appOutputDir env) (devex_get_platform_config env fs).effs = true := by
  simp only [devex_get_platform_config]
  split <;> simp [effsLocal, Effect.isLocalTo]

theorem effsLocal_read_idp_configuration (env : Env) (fs : FS) :
    effsLocal (appOutputDir env) (read_idp_configuration env fs).effs = true := by
  simp only [read_idp_configuration]
  split <;> simp [effsLocal, Effect.isLocalTo, decisionFiles]

theorem effsLocal_generate_portal (env : Env) (now : Str) (fs : FS) :
    effsLocal (appOutputDir env) (generate_portal env now fs).effs = true := by
  have h := effsLocal_read_idp_configuration env fs
  simp only [generate_portal]
  split
  · exact h
  · rw [effsLocal_append, h]
    simp [effsLocal, Effect.isLocalTo]

/-- A state directory as left by the Infrastructure agent with an
available Trivy scanner service. -/
def trivyReadyFs (d : Str) : FS :=
  [(⟨d, str "infrastructure-decisions.json"⟩,
    infraMetadata d (str "t0") (str "Trivy") (some (str "aquasec/trivy:latest")) true
      (str "Jenkins") (some (str "jenkins/jenkins:lts")) true true)]

/-- C7 counterexample: when the infrastructure decisions record an
available scanner service, run_trivy_scan executes docker compose as an
external process, so not every tool function is limited to reading,
rendering and writing files in the state directory. -/
theorem c7_subprocess_counterexample :
    ((run_trivy_scan (some (str "/data")) (str "t1") (SubprocResult.completed 0 (vDict []))
        (trivyReadyFs (str "/data"))).effs.any isExecEffect) = true ∧
    statusOf (run_trivy_scan (some (str "/data")) (str "t1") (SubprocResult.completed 0 (vDict []))
        (trivyReadyFs (str "/data"))).res = some (str "success") := by
  refine ⟨by decide, by decide⟩

/-- C7 amended: every modelled tool function except run_trivy_scan,
run_snyk_scan and get_user_preferences only reads and writes files (and
sets permissions) inside the state directory its agent computed; the two
scan functions additionally execute the docker compose scanner service as
an external process, and get_user_preferences probes fixed
user-preferences.yaml paths outside the state directory.  The stub tools
are pure literal returns with no effects at all. -/
theorem c7_tool_effects_confined :
    (∀ env now ss fs, effsLocal (archOutputDir env) (save_platform_config env now ss fs).effs = true) ∧
    (∀ env fs, effsLocal (archOutputDir env) (get_current_config env fs).effs = true) ∧
    (∀ env dt fs, effsLocal (archOutputDir env) (explain_decision env dt fs).effs = true) ∧
    (∀ env now a fs, effsLocal (archOutputDir env) (save_platform_config_adk env now a fs).effs = true) ∧
    (∀ env fs, effsLocal (appOutputDir env) (infra_get_platform_config env fs).effs = true) ∧
    (∀ env now content parsed fs,
      effsLocal (appOutputDir env) (save_docker_compose env now content parsed fs).effs = true) ∧
    (∀ env fs, effsLocal (appOutputDir env) (sec_get_platform_config env fs).effs = true) ∧
    (∀ env fs, effsLocal (appOutputDir env) (get_infrastructure_decisions env fs).effs = true) ∧
    (∀ env now v r rec fs,
      effsLocal (appOutputDir env) (save_security_report env now v r rec fs).effs = true) ∧
    (∀ env fs, effsLocal (appOutputDir env) (obs_get_platform_config env fs).effs = true) ∧
    (∀ env now dash fs,
      effsLocal (appOutputDir env) (setup_prometheus_grafana env now dash fs).effs = true) ∧
    (∀ env now cs fs, effsLocal (appOutputDir env) (save_cli_tool env now cs fs).effs = true) ∧
    (∀ env fs, effsLocal (appOutputDir env) (devex_get_platform_config env fs).effs = true) ∧
    (∀ env fs, effsLocal (appOutputDir env) (read_idp_configuration env fs).effs = true) ∧
    (∀ env now fs, effsLocal (appOutputDir env) (generate_portal env now fs).effs = true) ∧
    ((run_snyk_scan (some (str "/out")) (SubprocResult.completed 0 (vDict []))
        (trivyReadyFs (str "/out"))).effs.any isExecEffect = true) ∧
    (effsLocal (str "/out") (get_user_preferences
        [(⟨str "/app", str "user-preferences.yaml"⟩, vDict [])]).effs = false) :=
  ⟨effsLocal_save_platform_config, effsLocal_get_current_config, effsLocal_explain_decision,
   effsLocal_save_platform_config_adk, effsLocal_infra_get_platform_config,
   effsLocal_save_docker_compose, effsLocal_sec_get_platform_config,
   effsLocal_get_infrastructure_decisions, effsLocal_save_security_report,
   effsLocal_obs_get_platform_config, effsLocal_setup_prometheus_grafana,
   effsLocal_save_cli_tool, effsLocal_devex_get_platform_config,
   effsLocal_read_idp_configuration, effsLocal_generate_portal,
   by decide, by decide⟩

/-- The stack arguments of one canonical successful Platform Architect
invocation (the stack the agent instructions use as their example). -/
def demoArgs : AdkArgs :=
  { runtime := str "Python 3.11", framework := str "FastAPI", database := str "PostgreSQL",
    monitoring_metrics := str "Prometheus", monitoring_visualization := str "Grafana",
    security_scanner := str "Trivy", cicd_tool := str "Jenkins", cache_strategy := str "Redis",
    deployment_target := str "Docker Compose", deployment_environment := str "Local",
    justification_runtime := str "jr", justification_framework := str "jf",
    justification_database := str "jd", justification_monitoring := str "jm",
    justification_security := str "js", justification_deployment := str "jdep" }

set_option maxHeartbeats 4000000 in
/-- C6: a full pipeline run over a shared output directory (each stage
invoking its primary tool, every stage succeeding) leaves in that
directory the platform config, the docker-compose file, the CI/CD
scripts, both Grafana dashboards with the Prometheus config, the CLI
wrapper, and the web portal entry points. -/
theorem c6_pipeline_produces_artifacts (d now : Str) (fs : FS) :
    ((pipelineRun (some d) now demoArgs (SubprocResult.completed 0 (vDict [])) fs).pathExists
        ⟨d, str "platform-config.yaml"⟩ = true) ∧
    ((pipelineRun (some d) now demoArgs (SubprocResult.completed 0 (vDict [])) fs).pathExists
        ⟨d, str "docker-compose/app-stack.yml"⟩ = true) ∧
    ((pipelineRun (some d) now demoArgs (SubprocResult.completed 0 (vDict [])) fs).pathExists
        ⟨d, str "cicd/build.sh"⟩ = true) ∧
    ((pipelineRun (some d) now demoArgs (SubprocResult.completed 0 (vDict [])) fs).pathExists
        ⟨d, str "cicd/test.sh"⟩ = true) ∧
    ((pipelineRun (some d) now demoArgs (SubprocResult.completed 0 (vDict [])) fs).pathExists
        ⟨d, str "cicd/deploy.sh"⟩ = true) ∧
    ((pipelineRun (some d) now demoArgs (SubprocResult.completed 0 (vDict [])) fs).pathExists
        ⟨d, str "grafana-dashboards/app-metrics.json"⟩ = true) ∧
    ((pipelineRun (some d) now demoArgs (SubprocResult.completed 0 (vDict [])) fs).pathExists
        ⟨d, str "grafana-dashboards/system-metrics.json"⟩ = true) ∧
    ((pipelineRun (some d) now demoArgs (SubprocResult.completed 0 (vDict [])) fs).pathExists
        ⟨d, str "docker-compose/prometheus.yml"⟩ = true) ∧
    ((pipelineRun (some d) now demoArgs (SubprocResult.completed 0 (vDict [])) fs).pathExists
        ⟨d, str "cli-tool/idp"⟩ = true) ∧
    ((pipelineRun (some d) now demoArgs (SubprocResult.completed 0 (vDict [])) fs).pathExists
        ⟨d, str "portal/main.py"⟩ = true) ∧
    ((pipelineRun (some d) now demoArgs (SubprocResult.completed 0 (vDict [])) fs).pathExists
        ⟨d, str "portal/templates/index.html"⟩ = true) := by
  have hsc : resolveScanner (str "Trivy") = (str "Trivy", some (str "aquasec/trivy:latest")) := by
    decide
  have hci : resolveCicd (str "Jenkins") = (str "Jenkins", some (str "jenkins/jenkins:lts")) := by
    decide
  simp only [str] at hsc hci
  refine ⟨?_, ?_, ?_, ?_, ?_, ?_, ?_, ?_, ?_, ?_, ?_⟩ <;>
    simp [pipelineRun, save_platform_config_adk, save_docker_compose, run_trivy_scan,
      get_infrastructure_decisions, cicd_generate_scripts, setup_prometheus_grafana,
      save_cli_tool, generate_portal, read_idp_configuration, FS.pathExists,
      read_over_write, fpath_mk_eq, str, infraMetadata, buildConfigAdk, demoArgs,
      hsc, hci, Val.truthy, decisionFiles, List.foldl,
      asStrD, dGetPath, dGet, lookupD, statusOf, dGetD,
      archOutputDir, appOutputDir, Option.getD]
